import Mathlib

/-!
HardeningMaterial (SRC/material/uniaxial/HardeningMaterial.cpp).

A shallow embedding of the uniaxial hardening material of OpenSees and the
properties of its return mapping, commit/revert life cycle, transfer record
and sensitivity history.

Numbers of C++ type `double` are elements of an arbitrary linearly ordered
field `K` (exact arithmetic: `ℚ` for evaluation, `ℝ` for analysis); rounding,
infinities and NaN are outside the embedding.  Numbers of type `int` are `Int`.
Every member function is a function from the state before the call to the pair
(state after the call, returned value).
-/

namespace OpenSees

/-- The constant `DBL_EPSILON` of `<float.h>`: the gap between 1 and the next
double, `2^-52`. -/
def DBL_EPSILON (K : Type) [LinearOrderedField K] : K := 1 / 2 ^ 52

/-- Modelled from the spec: the class `Matrix` (Matrix.h) is not part of the
sources at hand.  The sensitivity accumulator is a matrix of 2 rows and `G`
columns; column `j` is kept as the pair (entry of row 0, entry of row 1). -/
structure Matrix (K : Type) where
  cols : List (K × K)
deriving DecidableEq, Repr

namespace Matrix

variable {K : Type} [LinearOrderedField K]

/-- The call `new Matrix(2, numCols)`: a zero matrix; a count that is not
positive gives a matrix without columns. -/
def new (numCols : Int) : Matrix K := ⟨List.replicate numCols.toNat (0, 0)⟩

/-- The call `noCols()`. -/
def noCols (M : Matrix K) : Int := (M.cols.length : Int)

/-- The call `Zero()`: every entry becomes zero, the shape stays. -/
def Zero (M : Matrix K) : Matrix K := ⟨M.cols.map (fun _ => (0, 0))⟩

/-- Read access `M(row, col)`; `none` when the row or the column is outside the
matrix (the access is then outside the allocated storage). -/
def get (M : Matrix K) (row : Nat) (col : Int) : Option K :=
  if 0 ≤ col ∧ col < M.noCols then
    match row with
    | 0 => (M.cols.get? col.toNat).map Prod.fst
    | 1 => (M.cols.get? col.toNat).map Prod.snd
    | _ => none
  else none

/-- The update `M(row, col) += v`; `none` when the row or the column is outside
the matrix. -/
def addTo (M : Matrix K) (row : Nat) (col : Int) (v : K) : Option (Matrix K) :=
  if 0 ≤ col ∧ col < M.noCols then
    match row with
    | 0 => some ⟨M.cols.modify (fun p => (p.1 + v, p.2)) col.toNat⟩
    | 1 => some ⟨M.cols.modify (fun p => (p.1, p.2 + v)) col.toNat⟩
    | _ => none
  else none

end Matrix

/-- The data members of `HardeningMaterial`, with the tag of the base class
`UniaxialMaterial` (`getTag`/`setTag`).  `SHVs` is the pointer to the
sensitivity history matrix, `none` for the null pointer. -/
structure HardeningMaterial (K : Type) where
  tag : Int
  E : K
  sigmaY : K
  Hiso : K
  Hkin : K
  CplasticStrain : K
  Chardening : K
  TplasticStrain : K
  Thardening : K
  Tstrain : K
  Tstress : K
  Ttangent : K
  parameterID : Int
  SHVs : Option (Matrix K)
deriving DecidableEq, Repr

namespace HardeningMaterial

variable {K : Type} [LinearOrderedField K]

/-- Method `HardeningMaterial::setTrialStrain(strain, strainRate)`; the body never
reads `strainRate`, which is left out. -/
def setTrialStrain (m : HardeningMaterial K) (strain : K) : HardeningMaterial K × Int :=
  if |m.Tstrain - strain| < DBL_EPSILON K then (m, 0)
  else
    -- Set total strain
    let m := { m with Tstrain := strain }
    -- Elastic trial stress
    let m := { m with Tstress := m.E * (m.Tstrain - m.CplasticStrain) }
    -- Compute trial stress relative to committed back stress
    let xsi := m.Tstress - m.Hkin * m.CplasticStrain
    -- Compute yield criterion
    let f := |xsi| - (m.sigmaY + m.Hiso * m.Chardening)
    if f ≤ -DBL_EPSILON K * m.E then
      -- Elastic step: set trial tangent
      ({ m with Ttangent := m.E }, 0)
    else
      -- Plastic step: return mapping
      let dGamma := f / (m.E + m.Hiso + m.Hkin)
      let n : Int := if xsi < 0 then -1 else 1
      let m := { m with Tstress := m.Tstress - dGamma * m.E * (n : K) }
      let m := { m with TplasticStrain := m.CplasticStrain + dGamma * (n : K) }
      let m := { m with Thardening := m.Chardening + dGamma }
      ({ m with Ttangent := m.E * (m.Hkin + m.Hiso) / (m.E + m.Hkin + m.Hiso) }, 0)

/-- Method `HardeningMaterial::getStress()`. -/
def getStress (m : HardeningMaterial K) : HardeningMaterial K × K := (m, m.Tstress)

/-- Method `HardeningMaterial::getTangent()`. -/
def getTangent (m : HardeningMaterial K) : HardeningMaterial K × K := (m, m.Ttangent)

/-- Method `HardeningMaterial::getStrain()`. -/
def getStrain (m : HardeningMaterial K) : HardeningMaterial K × K := (m, m.Tstrain)

/-- Method `HardeningMaterial::commitState()`. -/
def commitState (m : HardeningMaterial K) : HardeningMaterial K × Int :=
  let m := { m with CplasticStrain := m.TplasticStrain }
  let m := { m with Chardening := m.Thardening }
  (m, 0)

/-- Method `HardeningMaterial::revertToLastCommit()`. -/
def revertToLastCommit (m : HardeningMaterial K) : HardeningMaterial K × Int := (m, 0)

/-- Method `HardeningMaterial::revertToStart()`. -/
def revertToStart (m : HardeningMaterial K) : HardeningMaterial K × Int :=
  -- Reset committed history variables
  let m := { m with CplasticStrain := 0 }
  let m := { m with Chardening := 0 }
  -- Reset trial history variables
  let m := { m with TplasticStrain := 0 }
  let m := { m with Thardening := 0 }
  -- Initialize state variables
  let m := { m with Tstrain := 0 }
  let m := { m with Tstress := 0 }
  let m := { m with Ttangent := m.E }
  let m := match m.SHVs with
    | some M => { m with SHVs := some M.Zero }
    | none => m
  (m, 0)

/-- The constructor `HardeningMaterial(tag, e, s, hi, hk, n)`: the initialiser
list sets the tag and the four parameters, the body clears `parameterID` and
`SHVs` and calls `revertToStart`, which assigns every remaining member (they
are written as 0 before that call; `n` is not used). -/
def construct (tag : Int) (e s hi hk : K) : HardeningMaterial K :=
  let m : HardeningMaterial K :=
    { tag := tag, E := e, sigmaY := s, Hiso := hi, Hkin := hk,
      CplasticStrain := 0, Chardening := 0, TplasticStrain := 0, Thardening := 0,
      Tstrain := 0, Tstress := 0, Ttangent := 0, parameterID := 0, SHVs := none }
  (revertToStart m).1

/-- Method `HardeningMaterial::getCopy()`: the new instance is built by the
constructor from the tag and the four parameters, then the committed history,
the trial history and the trial state are copied into it.  The result pairs
the unchanged original with the copy. -/
def getCopy (m : HardeningMaterial K) : HardeningMaterial K × HardeningMaterial K :=
  let theCopy := construct m.tag m.E m.sigmaY m.Hiso m.Hkin
  -- Copy committed history variables
  let theCopy := { theCopy with CplasticStrain := m.CplasticStrain }
  let theCopy := { theCopy with Chardening := m.Chardening }
  -- Copy trial history variables
  let theCopy := { theCopy with TplasticStrain := m.TplasticStrain }
  let theCopy := { theCopy with Thardening := m.Thardening }
  -- Copy trial state variables
  let theCopy := { theCopy with Tstrain := m.Tstrain }
  let theCopy := { theCopy with Tstress := m.Tstress }
  let theCopy := { theCopy with Ttangent := m.Ttangent }
  (m, theCopy)

/-- The vector `data` that `sendSelf` fills before it hands it to the channel:
11 slots, slot 5 is never assigned and keeps the zero the `Vector` constructor
wrote. -/
def sendData (m : HardeningMaterial K) : List K :=
  [(m.tag : K), m.E, m.sigmaY, m.Hiso, m.Hkin, 0,
   m.CplasticStrain, m.Chardening, m.Tstrain, m.Tstress, m.Ttangent]

/-- Method `HardeningMaterial::sendSelf(cTag, theChannel)`.  The channel is outside the
sources: `sendVector` stands for `theChannel.sendVector(dbTag, cTag, ·)`, the
status it returns for the vector it is given. -/
def sendSelf (m : HardeningMaterial K) (sendVector : List K → Int) : HardeningMaterial K × Int :=
  let data := sendData m
  let res := sendVector data
  (m, res)

/-- The conversion `(int) x` of a double: truncation toward zero. -/
def toInt [FloorRing K] (x : K) : Int := if 0 ≤ x then ⌊x⌋ else ⌈x⌉

/-- Method `HardeningMaterial::recvSelf(cTag, theChannel, theBroker)`.  The channel is
outside the sources: `res` and `data` stand for the status returned by
`theChannel.recvVector(dbTag, cTag, data)` and the contents of `data` after
that call. -/
def recvSelf [FloorRing K] (m : HardeningMaterial K) (res : Int) (data : List K) :
    HardeningMaterial K × Int :=
  if res < 0 then
    let m := { m with E := 0 }
    let m := { m with tag := 0 }
    (m, res)
  else
    let m := { m with tag := toInt (data.getD 0 0) }
    let m := { m with E := data.getD 1 0 }
    let m := { m with sigmaY := data.getD 2 0 }
    let m := { m with Hiso := data.getD 3 0 }
    let m := { m with Hkin := data.getD 4 0 }
    let m := { m with CplasticStrain := data.getD 6 0 }
    let m := { m with Chardening := data.getD 7 0 }
    let m := { m with Tstrain := data.getD 8 0 }
    let m := { m with Tstress := data.getD 9 0 }
    let m := { m with Ttangent := data.getD 10 0 }
    let m := { m with TplasticStrain := m.CplasticStrain }
    let m := { m with Thardening := m.Chardening }
    (m, res)

/-- Method `HardeningMaterial::updateParameter(parameterID, info)`; `v` is
`info.theDouble`. -/
def updateParameter (m : HardeningMaterial K) (parameterID : Int) (v : K) :
    HardeningMaterial K × Int :=
  if parameterID = -1 then (m, -1)
  else if parameterID = 1 then ({ m with sigmaY := v }, 0)
  else if parameterID = 2 then ({ m with E := v }, 0)
  else if parameterID = 3 then ({ m with Hkin := v }, 0)
  else if parameterID = 4 then ({ m with Hiso := v }, 0)
  else (m, -1)

/-- Method `HardeningMaterial::activateParameter(passedParameterID)`. -/
def activateParameter (m : HardeningMaterial K) (passedParameterID : Int) :
    HardeningMaterial K × Int :=
  ({ m with parameterID := passedParameterID }, 0)

/-- The four locals `SigmaYSensitivity`, `ESensitivity`, `HkinSensitivity`,
`HisoSensitivity` that `getStressSensitivity` and `commitSensitivity` set from
`parameterID`. -/
structure ParamSens (K : Type) where
  SigmaYSensitivity : K
  ESensitivity : K
  HkinSensitivity : K
  HisoSensitivity : K
deriving DecidableEq, Repr

/-- The block "First set values depending on what is random": all four
start at 0 and the chain of tests on `parameterID` sets at most one of them
to 1. -/
def paramSens (parameterID : Int) : ParamSens K :=
  let z : ParamSens K := ⟨0, 0, 0, 0⟩
  if parameterID = 1 then { z with SigmaYSensitivity := 1 }
  else if parameterID = 2 then { z with ESensitivity := 1 }
  else if parameterID = 3 then { z with HkinSensitivity := 1 }
  else if parameterID = 4 then { z with HisoSensitivity := 1 }
  else z

/-- Method `HardeningMaterial::getStressSensitivity(gradIndex, conditional)`; the body
never reads `conditional`.  The locals `Tstress`, `xsi`, `f` shadow nothing
that is written back: no member is assigned.  The result is `none` when an
access to `SHVs` falls outside the matrix. -/
def getStressSensitivity (m : HardeningMaterial K) (gradIndex : Int) :
    Option (HardeningMaterial K × K) := do
  let ps : ParamSens K := paramSens m.parameterID
  -- Then pick up history variables for this gradient number
  let (CplasticStrainSensitivity, ChardeningSensitivity) ←
    (match m.SHVs with
     | some M =>
       if gradIndex < M.noCols then do
         let p ← M.get 0 gradIndex
         let a ← M.get 1 gradIndex
         pure (p, a)
       else pure (0, 0)
     | none => pure (0, 0) : Option (K × K))
  -- Elastic trial stress
  let Tstress := m.E * (m.Tstrain - m.CplasticStrain)
  -- Compute trial stress relative to committed back stress
  let xsi := Tstress - m.Hkin * m.CplasticStrain
  -- Compute yield criterion
  let f := |xsi| - (m.sigmaY + m.Hiso * m.Chardening)
  if f ≤ -DBL_EPSILON K * m.E then
    -- Elastic step
    let sensitivity := ps.ESensitivity * (m.Tstrain - m.CplasticStrain)
      - m.E * CplasticStrainSensitivity
    pure (m, sensitivity)
  else
    -- Plastic step
    let TstressSensitivity := ps.ESensitivity * (m.Tstrain - m.CplasticStrain)
      - m.E * CplasticStrainSensitivity
    let sign : Int := if xsi < 0 then -1 else 1
    let dGamma := f / (m.E + m.Hiso + m.Hkin)
    let CbackStressSensitivity :=
      ps.HkinSensitivity * m.CplasticStrain + m.Hkin * CplasticStrainSensitivity
    let fSensitivity := (TstressSensitivity - CbackStressSensitivity) * (sign : K)
      - ps.SigmaYSensitivity - ps.HisoSensitivity * m.Chardening
      - m.Hiso * ChardeningSensitivity
    let dGammaSensitivity :=
      (fSensitivity * (m.E + m.Hkin + m.Hiso)
        - f * (ps.ESensitivity + ps.HkinSensitivity + ps.HisoSensitivity))
      / ((m.E + m.Hkin + m.Hiso) * (m.E + m.Hkin + m.Hiso))
    let sensitivity := TstressSensitivity - dGammaSensitivity * m.E * (sign : K)
      - dGamma * ps.ESensitivity * (sign : K)
    pure (m, sensitivity)

/-- Method `HardeningMaterial::getTangentSensitivity(gradIndex)`; the body never reads
`gradIndex`. -/
def getTangentSensitivity (m : HardeningMaterial K) (_gradIndex : Int) :
    HardeningMaterial K × K :=
  if m.parameterID < 2 ∨ m.parameterID > 4 then (m, 0)
  else
    -- Elastic trial stress
    let Tstress := m.E * (m.Tstrain - m.CplasticStrain)
    -- Compute trial stress relative to committed back stress
    let xsi := Tstress - m.Hkin * m.CplasticStrain
    -- Compute yield criterion
    let f := |xsi| - (m.sigmaY + m.Hiso * m.Chardening)
    if f ≤ -DBL_EPSILON K * m.E then
      if m.parameterID = 2 then (m, 1) else (m, 0)
    else
      let EHK := m.E + m.Hiso + m.Hkin
      let EHK2 := EHK * EHK
      if m.parameterID = 2 then (m, (EHK * (m.Hkin + m.Hiso) - m.E * (m.Hkin + m.Hiso)) / EHK2)
      else if m.parameterID = 3 then (m, (EHK * m.E - m.E * (m.Hkin + m.Hiso)) / EHK2)
      else if m.parameterID = 4 then (m, (EHK * m.E - m.E * (m.Hkin + m.Hiso)) / EHK2)
      else (m, 0)

/-- Method `HardeningMaterial::getInitialTangentSensitivity(gradIndex)`. -/
def getInitialTangentSensitivity (m : HardeningMaterial K) (_gradIndex : Int) :
    HardeningMaterial K × K :=
  if m.parameterID = 2 then (m, 1) else (m, 0)

/-- Method `HardeningMaterial::commitSensitivity(TstrainSensitivity, gradIndex,
numGrads)`.  The result is `none` when an access to `SHVs` falls outside the
matrix. -/
def commitSensitivity (m : HardeningMaterial K) (TstrainSensitivity : K)
    (gradIndex numGrads : Int) : Option (HardeningMaterial K × Int) := do
  -- if (SHVs == 0) SHVs = new Matrix(2, numGrads)
  let M : Matrix K := match m.SHVs with
    | some M => M
    | none => Matrix.new numGrads
  let m := { m with SHVs := some M }
  if gradIndex ≥ M.noCols then pure (m, 0)
  else
    let ps : ParamSens K := paramSens m.parameterID
    -- Then pick up history variables for this gradient number
    let CplasticStrainSensitivity ← M.get 0 gradIndex
    let ChardeningSensitivity ← M.get 1 gradIndex
    -- Elastic trial stress
    let Tstress := m.E * (m.Tstrain - m.CplasticStrain)
    -- Compute trial stress relative to committed back stress
    let xsi := Tstress - m.Hkin * m.CplasticStrain
    -- Compute yield criterion
    let f := |xsi| - (m.sigmaY + m.Hiso * m.Chardening)
    if f ≤ -DBL_EPSILON K * m.E then
      -- Elastic step: no changes in the sensitivity history variables
      pure (m, 0)
    else
      -- Plastic step
      let TstressSensitivity := ps.ESensitivity * (m.Tstrain - m.CplasticStrain)
        + m.E * (TstrainSensitivity - CplasticStrainSensitivity)
      let sign : Int := if xsi < 0 then -1 else 1
      -- the local dGamma = f / (E+Hiso+Hkin) is computed here and never read
      let CbackStressSensitivity :=
        ps.HkinSensitivity * m.CplasticStrain + m.Hkin * CplasticStrainSensitivity
      let fSensitivity := (TstressSensitivity - CbackStressSensitivity) * (sign : K)
        - ps.SigmaYSensitivity - ps.HisoSensitivity * m.Chardening
        - m.Hiso * ChardeningSensitivity
      let dGammaSensitivity :=
        (fSensitivity * (m.E + m.Hkin + m.Hiso)
          - f * (ps.ESensitivity + ps.HkinSensitivity + ps.HisoSensitivity))
        / ((m.E + m.Hkin + m.Hiso) * (m.E + m.Hkin + m.Hiso))
      let M ← M.addTo 0 gradIndex (dGammaSensitivity * (sign : K))
      let M ← M.addTo 1 gradIndex dGammaSensitivity
      pure ({ m with SHVs := some M }, 0)

/-- Modelled from the spec: the class `Parameter` (Parameter.h) is not part of
the sources at hand.  Of this external parameter collaborator only what
`setParameter` does to it is kept: the value last given to `setValue` and the
identifiers registered through `addObject`, oldest first. -/
structure Parameter (K : Type) where
  value : Option K
  objects : List Int
deriving DecidableEq, Repr

/-- The call `param.setValue(v)`. -/
def Parameter.setValue (param : Parameter K) (v : K) : Parameter K :=
  { param with value := some v }

/-- The call `param.addObject(parameterID, this)`; `status` is the value the
collaborator returns. -/
def Parameter.addObject (param : Parameter K) (parameterID : Int) (status : Int) :
    Parameter K × Int :=
  ({ param with objects := param.objects ++ [parameterID] }, status)

/-- Method `HardeningMaterial::setParameter(argv, argc, param)`; the body never
reads `argc`.  The result holds the instance, the collaborator and the
returned value; it is `none` when `argv` has no element 0.  `status` is what
`param.addObject` returns. -/
def setParameter (m : HardeningMaterial K) (argv : List String) (param : Parameter K)
    (status : Int) : Option (HardeningMaterial K × Parameter K × Int) := do
  let argv0 ← argv.head?
  if argv0 = "sigmaY" ∨ argv0 = "fy" ∨ argv0 = "Fy" then
    let param := param.setValue m.sigmaY
    let (param, r) := param.addObject 1 status
    pure (m, param, r)
  else if argv0 = "E" then
    let param := param.setValue m.E
    let (param, r) := param.addObject 2 status
    pure (m, param, r)
  else if argv0 = "H_kin" ∨ argv0 = "Hkin" then
    let param := param.setValue m.Hkin
    let (param, r) := param.addObject 3 status
    pure (m, param, r)
  else if argv0 = "H_iso" ∨ argv0 = "Hiso" then
    let param := param.setValue m.Hiso
    let (param, r) := param.addObject 4 status
    pure (m, param, r)
  else pure (m, param, -1)

/-- The relative trial stress `xsi` that `setTrialStrain`, the sensitivity
getters and `commitSensitivity` compute from the committed history for the
total strain `strain`. -/
def xsiAt (m : HardeningMaterial K) (strain : K) : K :=
  m.E * (strain - m.CplasticStrain) - m.Hkin * m.CplasticStrain

/-- The yield criterion `f` computed from the committed history for the total
strain `strain`. -/
def yieldAt (m : HardeningMaterial K) (strain : K) : K :=
  |xsiAt m strain| - (m.sigmaY + m.Hiso * m.Chardening)

/-- The test `f <= -DBL_EPSILON * E` that selects the elastic step. -/
def elasticAt (m : HardeningMaterial K) (strain : K) : Prop :=
  yieldAt m strain ≤ -DBL_EPSILON K * m.E

instance (m : HardeningMaterial K) (strain : K) : Decidable (elasticAt m strain) := by
  unfold elasticAt
  infer_instance

/-- The local `n` (`sign` in the sensitivity code): `-1` if `xsi < 0`, else `1`. -/
def signAt (m : HardeningMaterial K) (strain : K) : Int :=
  if xsiAt m strain < 0 then -1 else 1

/-- The member that `updateParameter` overwrites for `parameterID` (the value
`setParameter` reports under that identifier): `sigmaY`, `E`, `Hkin`, `Hiso`
for 1, 2, 3, 4, and 0 for an identifier that selects no member. -/
def paramValue (m : HardeningMaterial K) (parameterID : Int) : K :=
  if parameterID = 1 then m.sigmaY
  else if parameterID = 2 then m.E
  else if parameterID = 3 then m.Hkin
  else if parameterID = 4 then m.Hiso
  else 0

/-- The trial tangent that the plastic step of `setTrialStrain` stores. -/
def plasticTangent (m : HardeningMaterial K) : K :=
  m.E * (m.Hkin + m.Hiso) / (m.E + m.Hkin + m.Hiso)

/-- One step of a load path as the host drives it: `setTrialStrain(strain)`
followed by `commitState()`. -/
def trialThenCommit (m : HardeningMaterial K) (strain : K) : HardeningMaterial K :=
  (commitState (setTrialStrain m strain).1).1

/-- The states of the elastic-perfectly-plastic scenario (`E = 29000`,
`sigmaY = 60`, `Hiso = Hkin = 0`, no active parameter, no sensitivity matrix)
right after a commit: committed and trial history agree. -/
def scenarioState (tag : Int) (plasticStrain hardening strain stress tangent : ℚ) :
    HardeningMaterial ℚ :=
  { tag := tag, E := 29000, sigmaY := 60, Hiso := 0, Hkin := 0,
    CplasticStrain := plasticStrain, Chardening := hardening,
    TplasticStrain := plasticStrain, Thardening := hardening,
    Tstrain := strain, Tstress := stress, Ttangent := tangent,
    parameterID := 0, SHVs := none }

/-- The sensitivity matrix after the first statement of `commitSensitivity`:
the matrix already there, or the zero matrix with `numGrads` columns that
this call allocates. -/
def allocated (m : HardeningMaterial K) (numGrads : Int) : Matrix K :=
  match m.SHVs with
  | some M => M
  | none => Matrix.new numGrads

/-- The local `dGammaSensitivity` of the plastic step of `commitSensitivity`,
for the strain sensitivity `d` and the stored history sensitivities `p` (row 0)
and `a` (row 1). -/
def dGammaSensitivityAt (m : HardeningMaterial K) (d p a : K) : K :=
  let ps : ParamSens K := paramSens m.parameterID
  let TstressSensitivity := ps.ESensitivity * (m.Tstrain - m.CplasticStrain)
    + m.E * (d - p)
  let sign : Int := signAt m m.Tstrain
  let CbackStressSensitivity := ps.HkinSensitivity * m.CplasticStrain + m.Hkin * p
  let fSensitivity := (TstressSensitivity - CbackStressSensitivity) * (sign : K)
    - ps.SigmaYSensitivity - ps.HisoSensitivity * m.Chardening - m.Hiso * a
  (fSensitivity * (m.E + m.Hkin + m.Hiso)
      - yieldAt m m.Tstrain * (ps.ESensitivity + ps.HkinSensitivity + ps.HisoSensitivity))
    / ((m.E + m.Hkin + m.Hiso) * (m.E + m.Hkin + m.Hiso))

/-- The block "pick up history variables for this gradient number" of
`getStressSensitivity`: the locals `CplasticStrainSensitivity` and
`ChardeningSensitivity`, read from column `gradIndex` when there is a matrix
and `gradIndex` is below its number of columns, and `(0, 0)` otherwise; `none`
when the read falls outside the matrix. -/
def historySens (m : HardeningMaterial K) (gradIndex : Int) : Option (K × K) :=
  match m.SHVs with
  | some M =>
    if gradIndex < M.noCols then do
      let p ← M.get 0 gradIndex
      let a ← M.get 1 gradIndex
      pure (p, a)
    else pure (0, 0)
  | none => pure (0, 0)

/-- The local `sensitivity` that `getStressSensitivity` returns, for the
history sensitivities `p` (plastic strain) and `a` (hardening). -/
def stressSensitivityAt (m : HardeningMaterial K) (p a : K) : K :=
  let ps : ParamSens K := paramSens m.parameterID
  let f := yieldAt m m.Tstrain
  if f ≤ -DBL_EPSILON K * m.E then
    ps.ESensitivity * (m.Tstrain - m.CplasticStrain) - m.E * p
  else
    let TstressSensitivity := ps.ESensitivity * (m.Tstrain - m.CplasticStrain) - m.E * p
    let sign : Int := signAt m m.Tstrain
    let dGamma := f / (m.E + m.Hiso + m.Hkin)
    let CbackStressSensitivity := ps.HkinSensitivity * m.CplasticStrain + m.Hkin * p
    let fSensitivity := (TstressSensitivity - CbackStressSensitivity) * (sign : K)
      - ps.SigmaYSensitivity - ps.HisoSensitivity * m.Chardening - m.Hiso * a
    let dGammaSensitivity :=
      (fSensitivity * (m.E + m.Hkin + m.Hiso)
        - f * (ps.ESensitivity + ps.HkinSensitivity + ps.HisoSensitivity))
      / ((m.E + m.Hkin + m.Hiso) * (m.E + m.Hkin + m.Hiso))
    TstressSensitivity - dGammaSensitivity * m.E * (sign : K)
      - dGamma * ps.ESensitivity * (sign : K)

/-- The forward stress formula of the plastic step,
`stress_e − (f/(E+Hiso+Hkin))·E·sign`, for a given value of `sign`. -/
def returnStress (m : HardeningMaterial K) (strain sign : K) : K :=
  m.E * (strain - m.CplasticStrain)
    - yieldAt m strain / (m.E + m.Hiso + m.Hkin) * m.E * sign

/-- The instance when the member that `parameterID` selects takes the value
`θ` (through `updateParameter`) and the committed plastic strain and hardening
move with it at the rates `p` and `a`. -/
def perturb (m : HardeningMaterial K) (parameterID : Int) (p a θ : K) : HardeningMaterial K :=
  { (updateParameter m parameterID θ).1 with
    CplasticStrain := m.CplasticStrain + p * (θ - paramValue m parameterID),
    Chardening := m.Chardening + a * (θ - paramValue m parameterID) }

/-- A state for the sensitivity examples: `E = 10`, `sigmaY = 1`, `Hiso = 2`,
`Hkin = 3`, no committed and no trial history, the given trial strain, active
parameter and sensitivity matrix.  The yield criterion is `10·|strain| − 1`. -/
def sampleState (K : Type) [LinearOrderedField K] (strain : K) (parameterID : Int)
    (SHVs : Option (Matrix K)) : HardeningMaterial K :=
  { tag := 1, E := 10, sigmaY := 1, Hiso := 2, Hkin := 3,
    CplasticStrain := 0, Chardening := 0, TplasticStrain := 0, Thardening := 0,
    Tstrain := strain, Tstress := 10 * strain, Ttangent := 10,
    parameterID := parameterID, SHVs := SHVs }

/-- A call that changes the instance, with its arguments. -/
inductive Call (K : Type) where
  | setTrialStrain (strain : K)
  | commitState
  | revertToLastCommit
  | revertToStart
  | updateParameter (parameterID : Int) (v : K)
  | activateParameter (passedParameterID : Int)
  | commitSensitivity (TstrainSensitivity : K) (gradIndex numGrads : Int)
deriving DecidableEq, Repr

/-- The state after one call; `none` when the call reads or writes outside the
sensitivity matrix. -/
def call (m : HardeningMaterial K) : Call K → Option (HardeningMaterial K)
  | .setTrialStrain strain => some (setTrialStrain m strain).1
  | .commitState => some (commitState m).1
  | .revertToLastCommit => some (revertToLastCommit m).1
  | .revertToStart => some (revertToStart m).1
  | .updateParameter parameterID v => some (updateParameter m parameterID v).1
  | .activateParameter passedParameterID => some (activateParameter m passedParameterID).1
  | .commitSensitivity d gradIndex numGrads =>
    (commitSensitivity m d gradIndex numGrads).map Prod.fst

/-- The state after a sequence of calls, first call first. -/
def calls (m : HardeningMaterial K) : List (Call K) → Option (HardeningMaterial K)
  | [] => some m
  | c :: cs => (call m c).bind (fun m1 => calls m1 cs)

end HardeningMaterial

end OpenSees

namespace OpenSees.HardeningMaterial

variable {K : Type} [LinearOrderedField K]

/-! ## The return mapping of `setTrialStrain` -/

/-- The test of the first line of `setTrialStrain` fails exactly when the new
strain is at least `DBL_EPSILON` away from the previous trial strain. -/
theorem not_shortcut_iff (m : HardeningMaterial K) (strain : K) :
    ¬ |m.Tstrain - strain| < DBL_EPSILON K ↔ DBL_EPSILON K ≤ |strain - m.Tstrain| := by
  rw [not_lt, abs_sub_comm]

/-- The value of `DBL_EPSILON` is positive. -/
theorem DBL_EPSILON_pos : 0 < DBL_EPSILON K := by
  unfold DBL_EPSILON
  positivity

/-- The first line of `setTrialStrain`: a strain closer than `DBL_EPSILON` to
the previous trial strain changes nothing. -/
theorem setTrialStrain_shortcut (m : HardeningMaterial K) (strain : K)
    (h0 : |m.Tstrain - strain| < DBL_EPSILON K) :
    setTrialStrain m strain = (m, 0) := by
  unfold setTrialStrain
  rw [if_pos h0]

/-- The elastic step of `setTrialStrain`. -/
theorem setTrialStrain_elastic (m : HardeningMaterial K) (strain : K)
    (h0 : ¬ |m.Tstrain - strain| < DBL_EPSILON K) (hf : elasticAt m strain) :
    setTrialStrain m strain =
      ({ m with Tstrain := strain, Tstress := m.E * (strain - m.CplasticStrain),
                Ttangent := m.E }, 0) := by
  unfold elasticAt yieldAt xsiAt at hf
  unfold setTrialStrain
  rw [if_neg h0]
  dsimp only
  rw [if_pos hf]

/-- The plastic step of `setTrialStrain`. -/
theorem setTrialStrain_plastic (m : HardeningMaterial K) (strain : K)
    (h0 : ¬ |m.Tstrain - strain| < DBL_EPSILON K) (hf : ¬ elasticAt m strain) :
    setTrialStrain m strain =
      ({ m with
          Tstrain := strain,
          Tstress := m.E * (strain - m.CplasticStrain)
            - yieldAt m strain / (m.E + m.Hiso + m.Hkin) * m.E * ((signAt m strain : Int) : K),
          TplasticStrain := m.CplasticStrain
            + yieldAt m strain / (m.E + m.Hiso + m.Hkin) * ((signAt m strain : Int) : K),
          Thardening := m.Chardening + yieldAt m strain / (m.E + m.Hiso + m.Hkin),
          Ttangent := m.E * (m.Hkin + m.Hiso) / (m.E + m.Hkin + m.Hiso) }, 0) := by
  unfold elasticAt yieldAt xsiAt at hf
  unfold setTrialStrain
  rw [if_neg h0]
  dsimp only
  rw [if_neg hf]
  rfl

/-- The sign local as a field element. -/
theorem signAt_cast (m : HardeningMaterial K) (strain : K) :
    ((signAt m strain : Int) : K) = if xsiAt m strain < 0 then -1 else 1 := by
  unfold signAt
  split_ifs <;> simp

/-- C1: `setTrialStrain` is the closed-form return mapping.  When
`E+Hiso+Hkin ≠ 0` and the new strain is at least `DBL_EPSILON` away from the
previous trial strain, the call returns 0 and stores the strain; with
`stress_e = E·(strain − CplasticStrain)`, `xsi = stress_e − Hkin·CplasticStrain`
and `f = |xsi| − (sigmaY + Hiso·Chardening)`, it stores `stress_e` and the
tangent `E` if `f ≤ −DBL_EPSILON·E`, and otherwise, with
`dGamma = f/(E+Hiso+Hkin)` and `sign = −1` if `xsi < 0` else `1`, it stores
the stress `stress_e − dGamma·E·sign`, the plastic strain
`CplasticStrain + dGamma·sign`, the hardening `Chardening + dGamma` and the
tangent `E·(Hkin+Hiso)/(E+Hkin+Hiso)`. -/
theorem setTrialStrain_return_mapping (m : HardeningMaterial K) (strain : K)
    (_hD : m.E + m.Hiso + m.Hkin ≠ 0)
    (hs : DBL_EPSILON K ≤ |strain - m.Tstrain|) :
    let stress_e := m.E * (strain - m.CplasticStrain)
    let xsi := stress_e - m.Hkin * m.CplasticStrain
    let f := |xsi| - (m.sigmaY + m.Hiso * m.Chardening)
    let dGamma := f / (m.E + m.Hiso + m.Hkin)
    let sign : K := if xsi < 0 then -1 else 1
    let r := setTrialStrain m strain
    r.2 = 0 ∧ r.1.Tstrain = strain ∧
    (f ≤ -DBL_EPSILON K * m.E → r.1.Tstress = stress_e ∧ r.1.Ttangent = m.E) ∧
    (¬ f ≤ -DBL_EPSILON K * m.E →
      r.1.Tstress = stress_e - dGamma * m.E * sign ∧
      r.1.TplasticStrain = m.CplasticStrain + dGamma * sign ∧
      r.1.Thardening = m.Chardening + dGamma ∧
      r.1.Ttangent = m.E * (m.Hkin + m.Hiso) / (m.E + m.Hkin + m.Hiso)) := by
  have h0 : ¬ |m.Tstrain - strain| < DBL_EPSILON K := (not_shortcut_iff m strain).mpr hs
  intro stress_e xsi f dGamma sign r
  have hsign : ((signAt m strain : Int) : K) = sign := signAt_cast m strain
  by_cases hf : elasticAt m strain
  · have hr : r = _ := setTrialStrain_elastic m strain h0 hf
    rw [hr]
    refine ⟨rfl, rfl, fun _ => ⟨rfl, rfl⟩, fun hn => absurd hf hn⟩
  · have hr : r = _ := setTrialStrain_plastic m strain h0 hf
    rw [hr]
    refine ⟨rfl, rfl, fun hn => absurd hn hf, fun _ => ⟨?_, ?_, rfl, rfl⟩⟩
    · show _ - _ * _ * ((signAt m strain : Int) : K) = _
      rw [hsign]
      rfl
    · show _ + _ * ((signAt m strain : Int) : K) = _
      rw [hsign]
      rfl

/-- The relative trial stress is its absolute value times the sign local. -/
theorem xsiAt_eq_sign_mul_abs (m : HardeningMaterial K) (strain : K) :
    xsiAt m strain = ((signAt m strain : Int) : K) * |xsiAt m strain| := by
  rw [signAt_cast]
  split_ifs with hx
  · rw [abs_of_neg hx]; ring
  · rw [abs_of_nonneg (not_lt.mp hx)]; ring

/-- The sign local has absolute value 1. -/
theorem abs_signAt (m : HardeningMaterial K) (strain : K) :
    |((signAt m strain : Int) : K)| = 1 := by
  rw [signAt_cast]
  split_ifs <;> simp

/-- C2: plastic invariant.  For `E > 0`, `sigmaY ≥ 0`, `Hiso ≥ 0`, `Hkin ≥ 0`
and `Chardening ≥ 0`, when `setTrialStrain` takes the plastic step (the strain
is not within `DBL_EPSILON` of the previous trial strain and `f ≤ −DBL_EPSILON·E`
fails), the yield function at the stored trial state is zero:
`|Tstress − Hkin·TplasticStrain| − (sigmaY + Hiso·Thardening) = 0`. -/
theorem setTrialStrain_plastic_on_yield_surface (m : HardeningMaterial K) (strain : K)
    (hE : 0 < m.E) (hY : 0 ≤ m.sigmaY) (hi : 0 ≤ m.Hiso) (hk : 0 ≤ m.Hkin)
    (hC : 0 ≤ m.Chardening)
    (h0 : ¬ |m.Tstrain - strain| < DBL_EPSILON K)
    (hf : ¬ yieldAt m strain ≤ -DBL_EPSILON K * m.E) :
    let r := (setTrialStrain m strain).1
    |r.Tstress - r.Hkin * r.TplasticStrain| - (r.sigmaY + r.Hiso * r.Thardening) = 0 := by
  intro r
  have hr : r = _ := congrArg Prod.fst (setTrialStrain_plastic m strain h0 hf)
  rw [hr]
  dsimp only
  have hD : 0 < m.E + m.Hiso + m.Hkin := by linarith
  have hD0 : m.E + m.Hiso + m.Hkin ≠ 0 := ne_of_gt hD
  have ha : 0 ≤ |xsiAt m strain| := abs_nonneg _
  have hYY : 0 ≤ m.sigmaY + m.Hiso * m.Chardening := by positivity
  have hx := xsiAt_eq_sign_mul_abs m strain
  have key : m.E * (strain - m.CplasticStrain)
        - yieldAt m strain / (m.E + m.Hiso + m.Hkin) * m.E * ((signAt m strain : Int) : K)
        - m.Hkin * (m.CplasticStrain
            + yieldAt m strain / (m.E + m.Hiso + m.Hkin) * ((signAt m strain : Int) : K))
      = ((signAt m strain : Int) : K)
          * ((|xsiAt m strain| * m.Hiso + (m.sigmaY + m.Hiso * m.Chardening) * (m.E + m.Hkin))
              / (m.E + m.Hiso + m.Hkin)) := by
    have h1 : m.E * (strain - m.CplasticStrain) = xsiAt m strain + m.Hkin * m.CplasticStrain := by
      unfold xsiAt; ring
    rw [h1]
    unfold yieldAt
    field_simp
    nth_rewrite 1 [hx]
    ring
  rw [key, abs_mul, abs_signAt, one_mul, abs_of_nonneg (by positivity)]
  unfold yieldAt
  field_simp
  ring

/-- Witness of C1 on a fresh instance with `E = 29000`, `sigmaY = 60`,
`Hiso = Hkin = 0` and the strain `0.003`: the plastic step stores the
hardening `27/29000`. -/
theorem setTrialStrain_return_mapping_witness :
    (construct 1 (29000 : ℚ) 60 0 0).E + (construct 1 (29000 : ℚ) 60 0 0).Hiso
        + (construct 1 (29000 : ℚ) 60 0 0).Hkin ≠ 0 ∧
    DBL_EPSILON ℚ ≤ |3 / 1000 - (construct 1 (29000 : ℚ) 60 0 0).Tstrain| ∧
    (setTrialStrain (construct 1 (29000 : ℚ) 60 0 0) (3 / 1000)).1.Thardening
      = 27 / 29000 := by
  have hD : (construct 1 (29000 : ℚ) 60 0 0).E + (construct 1 (29000 : ℚ) 60 0 0).Hiso
        + (construct 1 (29000 : ℚ) 60 0 0).Hkin ≠ 0 := by
    norm_num [construct, revertToStart]
  have hs : DBL_EPSILON ℚ ≤ |3 / 1000 - (construct 1 (29000 : ℚ) 60 0 0).Tstrain| := by
    norm_num [construct, revertToStart, DBL_EPSILON, abs_eq_max_neg, max_def]
  refine ⟨hD, hs, ?_⟩
  have h := (setTrialStrain_return_mapping (construct 1 (29000 : ℚ) 60 0 0) (3 / 1000)
    hD hs).2.2.2 (by norm_num [construct, revertToStart, DBL_EPSILON, abs_eq_max_neg, max_def])
  rw [h.2.2.1]
  norm_num [construct, revertToStart, abs_eq_max_neg, max_def]

/-- Witness of C2 on a fresh instance with `E = 2`, `sigmaY = 1`, `Hiso = 1`,
`Hkin = 1` and the strain `-3`. -/
theorem setTrialStrain_plastic_on_yield_surface_witness :
    |(setTrialStrain (construct 1 (2 : ℚ) 1 1 1) (-3)).1.Tstress
        - (setTrialStrain (construct 1 (2 : ℚ) 1 1 1) (-3)).1.Hkin
          * (setTrialStrain (construct 1 (2 : ℚ) 1 1 1) (-3)).1.TplasticStrain|
      - ((setTrialStrain (construct 1 (2 : ℚ) 1 1 1) (-3)).1.sigmaY
        + (setTrialStrain (construct 1 (2 : ℚ) 1 1 1) (-3)).1.Hiso
          * (setTrialStrain (construct 1 (2 : ℚ) 1 1 1) (-3)).1.Thardening) = 0 :=
  setTrialStrain_plastic_on_yield_surface (construct 1 (2 : ℚ) 1 1 1) (-3)
    (by norm_num [construct, revertToStart]) (by norm_num [construct, revertToStart])
    (by norm_num [construct, revertToStart]) (by norm_num [construct, revertToStart])
    (by norm_num [construct, revertToStart])
    (by norm_num [construct, revertToStart, DBL_EPSILON, abs_eq_max_neg, max_def])
    (by norm_num [construct, revertToStart, DBL_EPSILON, yieldAt, xsiAt, abs_eq_max_neg, max_def])

/-! ## The elastic-perfectly-plastic scenario -/

/-- A fresh instance of the scenario is the scenario state without history. -/
theorem construct_scenario (tag : Int) :
    construct tag (29000 : ℚ) 60 0 0 = scenarioState tag 0 0 0 0 29000 := by
  simp [construct, revertToStart, scenarioState]

/-- A plastic step of the scenario followed by a commit, given the value `y` of
the yield criterion and the sign `sgn` of the relative stress. -/
theorem scenario_plastic_commit (tag : Int) (p a strain stress tangent strain1 y : ℚ)
    (sgn : Int)
    (h0 : ¬ |(scenarioState tag p a strain stress tangent).Tstrain - strain1| < DBL_EPSILON ℚ)
    (hy : yieldAt (scenarioState tag p a strain stress tangent) strain1 = y)
    (hs : signAt (scenarioState tag p a strain stress tangent) strain1 = sgn)
    (hpos : 0 ≤ y) :
    (commitState (setTrialStrain (scenarioState tag p a strain stress tangent) strain1).1).1
      = scenarioState tag (p + y / 29000 * sgn) (a + y / 29000) strain1
          (29000 * (strain1 - p) - y / 29000 * 29000 * sgn) 0 := by
  have hf : ¬ elasticAt (scenarioState tag p a strain stress tangent) strain1 := by
    unfold elasticAt
    rw [hy]
    have : -DBL_EPSILON ℚ * (scenarioState tag p a strain stress tangent).E < 0 := by
      norm_num [scenarioState, DBL_EPSILON]
    linarith
  rw [setTrialStrain_plastic _ _ h0 hf, hy, hs]
  simp [commitState, scenarioState]

/-- C3: for a fresh instance with `E = 29000`, `sigmaY = 60`, `Hiso = Hkin = 0`
(any tag), `setTrialStrain` followed by `commitState` for the strains
`0, 0.003, 0.006, −0.003` gives `getStress = 0, 60, 60, −60` and
`getTangent = 29000, 0, 0, 0`. -/
theorem scenario_elastic_perfectly_plastic (tag : Int) :
    ((getStress (trialThenCommit (construct tag (29000 : ℚ) 60 0 0) 0)).2 = 0 ∧
     (getTangent (trialThenCommit (construct tag (29000 : ℚ) 60 0 0) 0)).2 = 29000) ∧
    ((getStress (trialThenCommit (trialThenCommit (construct tag (29000 : ℚ) 60 0 0) 0)
        (3 / 1000))).2 = 60 ∧
     (getTangent (trialThenCommit (trialThenCommit (construct tag (29000 : ℚ) 60 0 0) 0)
        (3 / 1000))).2 = 0) ∧
    ((getStress (trialThenCommit (trialThenCommit (trialThenCommit
        (construct tag (29000 : ℚ) 60 0 0) 0) (3 / 1000)) (6 / 1000))).2 = 60 ∧
     (getTangent (trialThenCommit (trialThenCommit (trialThenCommit
        (construct tag (29000 : ℚ) 60 0 0) 0) (3 / 1000)) (6 / 1000))).2 = 0) ∧
    ((getStress (trialThenCommit (trialThenCommit (trialThenCommit (trialThenCommit
        (construct tag (29000 : ℚ) 60 0 0) 0) (3 / 1000)) (6 / 1000)) (-3 / 1000))).2 = -60 ∧
     (getTangent (trialThenCommit (trialThenCommit (trialThenCommit (trialThenCommit
        (construct tag (29000 : ℚ) 60 0 0) 0) (3 / 1000)) (6 / 1000)) (-3 / 1000))).2 = 0) := by
  have e1 : trialThenCommit (construct tag (29000 : ℚ) 60 0 0) 0
      = scenarioState tag 0 0 0 0 29000 := by
    unfold trialThenCommit
    rw [construct_scenario, setTrialStrain_shortcut _ _ (by norm_num [scenarioState, DBL_EPSILON])]
    rfl
  have e2 : trialThenCommit (scenarioState tag 0 0 0 0 29000) (3 / 1000)
      = scenarioState tag (27 / 29000) (27 / 29000) (3 / 1000) 60 0 := by
    unfold trialThenCommit
    rw [scenario_plastic_commit tag 0 0 0 0 29000 (3 / 1000) 27 1
      (by norm_num [scenarioState, DBL_EPSILON, abs_eq_max_neg, max_def])
      (by norm_num [scenarioState, yieldAt, xsiAt, abs_eq_max_neg, max_def])
      (by norm_num [scenarioState, signAt, xsiAt]) (by norm_num)]
    norm_num [scenarioState]
  have e3 : trialThenCommit (scenarioState tag (27 / 29000) (27 / 29000) (3 / 1000) 60 0)
      (6 / 1000) = scenarioState tag (114 / 29000) (114 / 29000) (6 / 1000) 60 0 := by
    unfold trialThenCommit
    rw [scenario_plastic_commit tag _ _ _ _ _ (6 / 1000) 87 1
      (by norm_num [scenarioState, DBL_EPSILON, abs_eq_max_neg, max_def])
      (by norm_num [scenarioState, yieldAt, xsiAt, abs_eq_max_neg, max_def])
      (by norm_num [scenarioState, signAt, xsiAt]) (by norm_num)]
    norm_num [scenarioState]
  have e4 : trialThenCommit (scenarioState tag (114 / 29000) (114 / 29000) (6 / 1000) 60 0)
      (-3 / 1000) = scenarioState tag (-27 / 29000) (255 / 29000) (-3 / 1000) (-60) 0 := by
    unfold trialThenCommit
    rw [scenario_plastic_commit tag _ _ _ _ _ (-3 / 1000) 141 (-1)
      (by norm_num [scenarioState, DBL_EPSILON, abs_eq_max_neg, max_def])
      (by norm_num [scenarioState, yieldAt, xsiAt, abs_eq_max_neg, max_def])
      (by norm_num [scenarioState, signAt, xsiAt]) (by norm_num)]
    norm_num [scenarioState]
  rw [e1, e2, e3, e4]
  simp [getStress, getTangent, scenarioState]

/-! ## Frame of `setTrialStrain` and invariants along call sequences -/

/-- The members `setTrialStrain` never assigns: tag, parameters, committed
history, active parameter and sensitivity matrix. -/
theorem setTrialStrain_frame (m : HardeningMaterial K) (strain : K) :
    (setTrialStrain m strain).1.tag = m.tag ∧
    (setTrialStrain m strain).1.E = m.E ∧
    (setTrialStrain m strain).1.sigmaY = m.sigmaY ∧
    (setTrialStrain m strain).1.Hiso = m.Hiso ∧
    (setTrialStrain m strain).1.Hkin = m.Hkin ∧
    (setTrialStrain m strain).1.CplasticStrain = m.CplasticStrain ∧
    (setTrialStrain m strain).1.Chardening = m.Chardening ∧
    (setTrialStrain m strain).1.parameterID = m.parameterID ∧
    (setTrialStrain m strain).1.SHVs = m.SHVs := by
  by_cases h0 : |m.Tstrain - strain| < DBL_EPSILON K
  · rw [setTrialStrain_shortcut m strain h0]
    exact ⟨rfl, rfl, rfl, rfl, rfl, rfl, rfl, rfl, rfl⟩
  · by_cases hf : elasticAt m strain
    · rw [setTrialStrain_elastic m strain h0 hf]
      exact ⟨rfl, rfl, rfl, rfl, rfl, rfl, rfl, rfl, rfl⟩
    · rw [setTrialStrain_plastic m strain h0 hf]
      exact ⟨rfl, rfl, rfl, rfl, rfl, rfl, rfl, rfl, rfl⟩

/-- C5, the code at the failing input: fresh instance with `E = 29000`,
`sigmaY = 60`, `Hiso = Hkin = 0`; `setTrialStrain(0.003)` takes the plastic
step and is not committed; the next call `setTrialStrain(0.001)` is not
short-cut and takes the elastic step, and after it the trial history is still
that of the abandoned plastic trial (`27/29000`) while the committed history
is 0. -/
theorem elastic_step_keeps_abandoned_trial_history :
    (¬ |(setTrialStrain (construct 1 (29000 : ℚ) 60 0 0) (3 / 1000)).1.Tstrain - 1 / 1000|
        < DBL_EPSILON ℚ) ∧
    elasticAt (setTrialStrain (construct 1 (29000 : ℚ) 60 0 0) (3 / 1000)).1 (1 / 1000) ∧
    (setTrialStrain (setTrialStrain (construct 1 (29000 : ℚ) 60 0 0) (3 / 1000)).1
      (1 / 1000)).1.TplasticStrain = 27 / 29000 ∧
    (setTrialStrain (setTrialStrain (construct 1 (29000 : ℚ) 60 0 0) (3 / 1000)).1
      (1 / 1000)).1.CplasticStrain = 0 ∧
    (setTrialStrain (setTrialStrain (construct 1 (29000 : ℚ) 60 0 0) (3 / 1000)).1
      (1 / 1000)).1.Thardening = 27 / 29000 ∧
    (setTrialStrain (setTrialStrain (construct 1 (29000 : ℚ) 60 0 0) (3 / 1000)).1
      (1 / 1000)).1.Chardening = 0 := by
  have e1 : (setTrialStrain (construct 1 (29000 : ℚ) 60 0 0) (3 / 1000)).1
      = { scenarioState 1 0 0 (3 / 1000) 60 0 with
          TplasticStrain := 27 / 29000, Thardening := 27 / 29000 } := by
    have h0 : ¬ |(construct 1 (29000 : ℚ) 60 0 0).Tstrain - 3 / 1000| < DBL_EPSILON ℚ := by
      norm_num [construct, revertToStart, DBL_EPSILON, abs_eq_max_neg, max_def]
    have hy : yieldAt (construct 1 (29000 : ℚ) 60 0 0) (3 / 1000) = 27 := by
      norm_num [construct, revertToStart, yieldAt, xsiAt, abs_eq_max_neg, max_def]
    have hs : signAt (construct 1 (29000 : ℚ) 60 0 0) (3 / 1000) = 1 := by
      norm_num [construct, revertToStart, signAt, xsiAt]
    have hf : ¬ elasticAt (construct 1 (29000 : ℚ) 60 0 0) (3 / 1000) := by
      unfold elasticAt
      rw [hy]
      norm_num [construct, revertToStart, DBL_EPSILON]
    rw [setTrialStrain_plastic _ _ h0 hf, hy, hs]
    norm_num [construct, revertToStart, scenarioState]
  rw [e1]
  have h0 : ¬ |({ scenarioState 1 0 0 (3 / 1000) 60 0 with
      TplasticStrain := 27 / 29000, Thardening := 27 / 29000 } : HardeningMaterial ℚ).Tstrain
      - 1 / 1000| < DBL_EPSILON ℚ := by
    norm_num [scenarioState, DBL_EPSILON, abs_eq_max_neg, max_def]
  have hf : elasticAt ({ scenarioState 1 0 0 (3 / 1000) 60 0 with
      TplasticStrain := 27 / 29000, Thardening := 27 / 29000 } : HardeningMaterial ℚ)
      (1 / 1000) := by
    norm_num [elasticAt, yieldAt, xsiAt, scenarioState, DBL_EPSILON, abs_eq_max_neg, max_def]
  refine ⟨h0, hf, ?_⟩
  rw [setTrialStrain_elastic _ _ h0 hf]
  simp [scenarioState]

/-- C6, as stated, fails: instance `a` is a fresh instance with `E = 1`,
`sigmaY = 1` after `setTrialStrain(1/2)` and `updateParameter(2, 2)` (`E := 2`);
the instance `b` is fresh with `E = 2`, `sigmaY = 1`.  Parameters and committed
history agree, yet `setTrialStrain(1/2)` returns at its first line on `a`
(trial stress stays `1/2`) and computes the trial stress 1 on `b`. -/
theorem setTrialStrain_depends_on_previous_trial :
    (updateParameter (setTrialStrain (construct 1 (1 : ℚ) 1 0 0) (1 / 2)).1 2 2).1.E
      = (construct 1 (2 : ℚ) 1 0 0).E ∧
    (updateParameter (setTrialStrain (construct 1 (1 : ℚ) 1 0 0) (1 / 2)).1 2 2).1.sigmaY
      = (construct 1 (2 : ℚ) 1 0 0).sigmaY ∧
    (updateParameter (setTrialStrain (construct 1 (1 : ℚ) 1 0 0) (1 / 2)).1 2 2).1.Hiso
      = (construct 1 (2 : ℚ) 1 0 0).Hiso ∧
    (updateParameter (setTrialStrain (construct 1 (1 : ℚ) 1 0 0) (1 / 2)).1 2 2).1.Hkin
      = (construct 1 (2 : ℚ) 1 0 0).Hkin ∧
    (updateParameter (setTrialStrain (construct 1 (1 : ℚ) 1 0 0) (1 / 2)).1 2 2).1.CplasticStrain
      = (construct 1 (2 : ℚ) 1 0 0).CplasticStrain ∧
    (updateParameter (setTrialStrain (construct 1 (1 : ℚ) 1 0 0) (1 / 2)).1 2 2).1.Chardening
      = (construct 1 (2 : ℚ) 1 0 0).Chardening ∧
    (setTrialStrain (updateParameter (setTrialStrain (construct 1 (1 : ℚ) 1 0 0)
      (1 / 2)).1 2 2).1 (1 / 2)).1.Tstress = 1 / 2 ∧
    (setTrialStrain (construct 1 (2 : ℚ) 1 0 0) (1 / 2)).1.Tstress = 1 := by
  have ea : (updateParameter (setTrialStrain (construct 1 (1 : ℚ) 1 0 0) (1 / 2)).1 2 2).1
      = { construct 1 (2 : ℚ) 1 0 0 with
          Tstrain := 1 / 2, Tstress := 1 / 2, Ttangent := 1 } := by
    have h0 : ¬ |(construct 1 (1 : ℚ) 1 0 0).Tstrain - 1 / 2| < DBL_EPSILON ℚ := by
      norm_num [construct, revertToStart, DBL_EPSILON, abs_eq_max_neg, max_def]
    have hf : elasticAt (construct 1 (1 : ℚ) 1 0 0) (1 / 2) := by
      norm_num [elasticAt, yieldAt, xsiAt, construct, revertToStart, DBL_EPSILON,
        abs_eq_max_neg, max_def]
    rw [setTrialStrain_elastic _ _ h0 hf]
    norm_num [updateParameter, construct, revertToStart]
  rw [ea]
  refine ⟨rfl, rfl, rfl, rfl, rfl, rfl, ?_, ?_⟩
  · rw [setTrialStrain_shortcut _ _ (by norm_num [DBL_EPSILON])]
  · have h0 : ¬ |(construct 1 (2 : ℚ) 1 0 0).Tstrain - 1 / 2| < DBL_EPSILON ℚ := by
      norm_num [construct, revertToStart, DBL_EPSILON, abs_eq_max_neg, max_def]
    have hy : yieldAt (construct 1 (2 : ℚ) 1 0 0) (1 / 2) = 0 := by
      norm_num [construct, revertToStart, yieldAt, xsiAt]
    have hf : ¬ elasticAt (construct 1 (2 : ℚ) 1 0 0) (1 / 2) := by
      unfold elasticAt
      rw [hy]
      norm_num [construct, revertToStart, DBL_EPSILON]
    rw [setTrialStrain_plastic _ _ h0 hf, hy]
    norm_num [construct, revertToStart]

/-- The relative trial stress depends on parameters and committed history only. -/
theorem xsiAt_congr (a b : HardeningMaterial K) (s : K)
    (hE : a.E = b.E) (hk : a.Hkin = b.Hkin) (hCp : a.CplasticStrain = b.CplasticStrain) :
    xsiAt a s = xsiAt b s := by
  unfold xsiAt
  rw [hE, hk, hCp]

/-- The yield criterion depends on parameters and committed history only. -/
theorem yieldAt_congr (a b : HardeningMaterial K) (s : K)
    (hE : a.E = b.E) (hY : a.sigmaY = b.sigmaY) (hi : a.Hiso = b.Hiso) (hk : a.Hkin = b.Hkin)
    (hCp : a.CplasticStrain = b.CplasticStrain) (hCh : a.Chardening = b.Chardening) :
    yieldAt a s = yieldAt b s := by
  unfold yieldAt
  rw [xsiAt_congr a b s hE hk hCp, hY, hi, hCh]

/-- C6, amended: two instances with equal parameters and equal committed
history, whose previous trial strains both differ from `s` by `DBL_EPSILON`
or more (a closer strain makes the call return at its first line, keeping
the previous trial state), take the same step on `setTrialStrain(s)`, return the
same value and store the same trial strain, stress and tangent, and, on the
plastic step, the same trial plastic strain and hardening. -/
theorem setTrialStrain_determined (a b : HardeningMaterial K) (s : K)
    (hE : a.E = b.E) (hY : a.sigmaY = b.sigmaY) (hi : a.Hiso = b.Hiso) (hk : a.Hkin = b.Hkin)
    (hCp : a.CplasticStrain = b.CplasticStrain) (hCh : a.Chardening = b.Chardening)
    (ha : DBL_EPSILON K ≤ |s - a.Tstrain|) (hb : DBL_EPSILON K ≤ |s - b.Tstrain|) :
    (setTrialStrain a s).2 = (setTrialStrain b s).2 ∧
    (setTrialStrain a s).1.Tstrain = (setTrialStrain b s).1.Tstrain ∧
    (setTrialStrain a s).1.Tstress = (setTrialStrain b s).1.Tstress ∧
    (setTrialStrain a s).1.Ttangent = (setTrialStrain b s).1.Ttangent ∧
    (elasticAt a s ↔ elasticAt b s) ∧
    (¬ elasticAt a s →
      (setTrialStrain a s).1.TplasticStrain = (setTrialStrain b s).1.TplasticStrain ∧
      (setTrialStrain a s).1.Thardening = (setTrialStrain b s).1.Thardening) := by
  have ha0 := (not_shortcut_iff a s).mpr ha
  have hb0 := (not_shortcut_iff b s).mpr hb
  have hx := xsiAt_congr a b s hE hk hCp
  have hy := yieldAt_congr a b s hE hY hi hk hCp hCh
  have hel : elasticAt a s ↔ elasticAt b s := by
    unfold elasticAt
    rw [hy, hE]
  have hsg : signAt a s = signAt b s := by
    unfold signAt
    rw [hx]
  by_cases hf : elasticAt a s
  · rw [setTrialStrain_elastic a s ha0 hf, setTrialStrain_elastic b s hb0 (hel.mp hf)]
    refine ⟨rfl, rfl, ?_, hE, hel, fun hn => absurd hf hn⟩
    show a.E * (s - a.CplasticStrain) = b.E * (s - b.CplasticStrain)
    rw [hE, hCp]
  · have hfb : ¬ elasticAt b s := fun h => hf (hel.mpr h)
    rw [setTrialStrain_plastic a s ha0 hf, setTrialStrain_plastic b s hb0 hfb]
    refine ⟨rfl, rfl, ?_, ?_, hel, fun _ => ⟨?_, ?_⟩⟩
    · show a.E * (s - a.CplasticStrain) - yieldAt a s / (a.E + a.Hiso + a.Hkin) * a.E * _
        = b.E * (s - b.CplasticStrain) - yieldAt b s / (b.E + b.Hiso + b.Hkin) * b.E * _
      rw [hy, hsg, hE, hi, hk, hCp]
    · show a.E * (a.Hkin + a.Hiso) / (a.E + a.Hkin + a.Hiso)
        = b.E * (b.Hkin + b.Hiso) / (b.E + b.Hkin + b.Hiso)
      rw [hE, hi, hk]
    · show a.CplasticStrain + yieldAt a s / (a.E + a.Hiso + a.Hkin) * _
        = b.CplasticStrain + yieldAt b s / (b.E + b.Hiso + b.Hkin) * _
      rw [hy, hsg, hE, hi, hk, hCp]
    · show a.Chardening + yieldAt a s / (a.E + a.Hiso + a.Hkin)
        = b.Chardening + yieldAt b s / (b.E + b.Hiso + b.Hkin)
      rw [hy, hE, hi, hk, hCh]

/-- Witness of the amended C6: the scenario state with an uncommitted plastic
trial at strain `0.003` and the fresh scenario state, both driven to `0.006`. -/
theorem setTrialStrain_determined_witness :
    DBL_EPSILON ℚ ≤ |6 / 1000 - ({ scenarioState 1 0 0 (3 / 1000) 60 0 with
        TplasticStrain := 27 / 29000, Thardening := 27 / 29000 } : HardeningMaterial ℚ).Tstrain| ∧
    DBL_EPSILON ℚ ≤ |6 / 1000 - (scenarioState 1 0 0 0 0 29000).Tstrain| ∧
    (setTrialStrain ({ scenarioState 1 0 0 (3 / 1000) 60 0 with
        TplasticStrain := 27 / 29000, Thardening := 27 / 29000 } : HardeningMaterial ℚ)
        (6 / 1000)).1.Tstress
      = (setTrialStrain (scenarioState 1 0 0 0 0 29000) (6 / 1000)).1.Tstress :=
  have ha : DBL_EPSILON ℚ ≤ |6 / 1000 - ({ scenarioState 1 0 0 (3 / 1000) 60 0 with
      TplasticStrain := 27 / 29000, Thardening := 27 / 29000 } : HardeningMaterial ℚ).Tstrain| := by
    norm_num [scenarioState, DBL_EPSILON, abs_eq_max_neg, max_def]
  have hb : DBL_EPSILON ℚ ≤ |6 / 1000 - (scenarioState 1 0 0 0 0 29000).Tstrain| := by
    norm_num [scenarioState, DBL_EPSILON, abs_eq_max_neg, max_def]
  ⟨ha, hb, (setTrialStrain_determined
    ({ scenarioState 1 0 0 (3 / 1000) 60 0 with
        TplasticStrain := 27 / 29000, Thardening := 27 / 29000 } : HardeningMaterial ℚ)
    (scenarioState 1 0 0 0 0 29000) (6 / 1000) rfl rfl rfl rfl rfl rfl ha hb).2.2.1⟩

/-! ## Idempotence -/

/-- After a `setTrialStrain(s)` call the trial strain is within `DBL_EPSILON`
of `s`, so that the same call again returns at its first line. -/
theorem setTrialStrain_then_shortcut (m : HardeningMaterial K) (s : K) :
    |(setTrialStrain m s).1.Tstrain - s| < DBL_EPSILON K := by
  by_cases h0 : |m.Tstrain - s| < DBL_EPSILON K
  · rw [setTrialStrain_shortcut m s h0]
    exact h0
  · have hz : |s - s| < DBL_EPSILON K := by
      rw [sub_self, abs_zero]
      exact DBL_EPSILON_pos
    by_cases hf : elasticAt m s
    · rw [setTrialStrain_elastic m s h0 hf]
      exact hz
    · rw [setTrialStrain_plastic m s h0 hf]
      exact hz

/-- C7: idempotence.  For every instance and every strain `s`, a second
`setTrialStrain(s)` right after the first returns the same value and leaves
every member (trial strain, stress, tangent, trial and committed history,
parameters, tag, active parameter, sensitivity matrix) as the first call left
it. -/
theorem setTrialStrain_idempotent (m : HardeningMaterial K) (s : K) :
    setTrialStrain (setTrialStrain m s).1 s = setTrialStrain m s := by
  rw [setTrialStrain_shortcut _ _ (setTrialStrain_then_shortcut m s)]
  by_cases h0 : |m.Tstrain - s| < DBL_EPSILON K
  · rw [setTrialStrain_shortcut m s h0]
  · by_cases hf : elasticAt m s
    · rw [setTrialStrain_elastic m s h0 hf]
    · rw [setTrialStrain_plastic m s h0 hf]

/-! ## Committed history changes through `commitState` only -/

/-- A successful `commitSensitivity` call returns 0 and changes no member other
than the sensitivity matrix. -/
theorem commitSensitivity_frame (m : HardeningMaterial K) (d : K) (gradIndex numGrads : Int)
    (r : HardeningMaterial K × Int)
    (h : commitSensitivity m d gradIndex numGrads = some r) :
    r.2 = 0 ∧ ∃ M : Matrix K, r.1 = { m with SHVs := some M } := by
  unfold commitSensitivity at h
  simp only [bind, pure, ge_iff_le] at h
  split_ifs at h
  all_goals simp only [Option.bind_eq_some, Option.some.injEq] at h
  all_goals first
    | (subst h; exact ⟨rfl, _, rfl⟩)
    | (obtain ⟨p, -, a, -, h⟩ := h; subst h; exact ⟨rfl, _, rfl⟩)
    | (obtain ⟨p, -, a, -, M1, -, M2, -, h⟩ := h; subst h; exact ⟨rfl, _, rfl⟩)

/-- A successful `getStressSensitivity` call changes no member. -/
theorem getStressSensitivity_frame (m : HardeningMaterial K) (gradIndex : Int)
    (r : HardeningMaterial K × K) (h : getStressSensitivity m gradIndex = some r) :
    r.1 = m := by
  unfold getStressSensitivity at h
  simp only [bind, pure, Option.bind_eq_some] at h
  obtain ⟨pa, -, h⟩ := h
  split_ifs at h <;> simp only [Option.some.injEq] at h <;> subst h <;> rfl

/-! ## The transfer record -/

/-- The conversion of an `int` to `double` and back gives the `int`. -/
theorem toInt_intCast [FloorRing K] (z : Int) : toInt (z : K) = z := by
  unfold toInt
  split_ifs
  · exact Int.floor_intCast z
  · exact Int.ceil_intCast z

/-- C9: serialization round trip.  `sendSelf` leaves the instance unchanged
and returns the status of the channel for the 11-slot vector `sendData m`.
When the channel delivers that vector unchanged with a status `res ≥ 0`,
`recvSelf` on any instance `r` returns `res` and leaves `r` with the tag, the
parameters and the committed history of `m`, and with trial history equal to
committed history, whatever the trial history of `m` was. -/
theorem sendSelf_recvSelf_round_trip [FloorRing K] (m r : HardeningMaterial K)
    (sendVector : List K → Int) (res : Int) (hres : 0 ≤ res) :
    (sendSelf m sendVector).1 = m ∧
    (sendSelf m sendVector).2 = sendVector (sendData m) ∧
    (sendData m).length = 11 ∧
    (recvSelf r res (sendData m)).2 = res ∧
    (recvSelf r res (sendData m)).1.tag = m.tag ∧
    (recvSelf r res (sendData m)).1.E = m.E ∧
    (recvSelf r res (sendData m)).1.sigmaY = m.sigmaY ∧
    (recvSelf r res (sendData m)).1.Hiso = m.Hiso ∧
    (recvSelf r res (sendData m)).1.Hkin = m.Hkin ∧
    (recvSelf r res (sendData m)).1.CplasticStrain = m.CplasticStrain ∧
    (recvSelf r res (sendData m)).1.Chardening = m.Chardening ∧
    (recvSelf r res (sendData m)).1.TplasticStrain
      = (recvSelf r res (sendData m)).1.CplasticStrain ∧
    (recvSelf r res (sendData m)).1.Thardening
      = (recvSelf r res (sendData m)).1.Chardening := by
  have hneg : ¬ res < 0 := not_lt.mpr hres
  unfold recvSelf
  rw [if_neg hneg]
  refine ⟨rfl, rfl, rfl, rfl, ?_, rfl, rfl, rfl, rfl, rfl, rfl, rfl, rfl⟩
  show toInt ((sendData m).getD 0 0) = m.tag
  exact toInt_intCast m.tag

/-- Witness of C9: the sender is the scenario state with an uncommitted plastic
trial (trial history `27/29000`, committed history 0), the receiver is built by
the default constructor, the channel status is 0; the received trial plastic
strain equals the received committed plastic strain. -/
theorem sendSelf_recvSelf_round_trip_witness :
    (0 : Int) ≤ 0 ∧
    (recvSelf (construct 0 (0 : ℚ) 0 0 0) 0
      (sendData ({ scenarioState 7 0 0 (3 / 1000) 60 0 with
        TplasticStrain := 27 / 29000, Thardening := 27 / 29000 } : HardeningMaterial ℚ))).1.tag
      = 7 ∧
    (recvSelf (construct 0 (0 : ℚ) 0 0 0) 0
      (sendData ({ scenarioState 7 0 0 (3 / 1000) 60 0 with
        TplasticStrain := 27 / 29000, Thardening := 27 / 29000 } : HardeningMaterial ℚ))).1.TplasticStrain
      = (recvSelf (construct 0 (0 : ℚ) 0 0 0) 0
      (sendData ({ scenarioState 7 0 0 (3 / 1000) 60 0 with
        TplasticStrain := 27 / 29000, Thardening := 27 / 29000 } : HardeningMaterial ℚ))).1.CplasticStrain :=
  have h := sendSelf_recvSelf_round_trip
    ({ scenarioState 7 0 0 (3 / 1000) 60 0 with
        TplasticStrain := 27 / 29000, Thardening := 27 / 29000 } : HardeningMaterial ℚ)
    (construct 0 (0 : ℚ) 0 0 0) (fun _ => 0) 0 (le_refl 0)
  ⟨le_refl 0, h.2.2.2.2.1, h.2.2.2.2.2.2.2.2.2.2.2.1⟩

/-! ## `revertToStart` against a fresh instance -/

/-- The call `Zero()` keeps the number of columns. -/
theorem noCols_Zero (M : Matrix K) : M.Zero.noCols = M.noCols := by
  simp [Matrix.Zero, Matrix.noCols]

/-- Every column of a zeroed matrix is `(0, 0)`. -/
theorem cols_Zero (M : Matrix K) : ∀ p ∈ M.Zero.cols, p = ((0 : K), (0 : K)) := by
  intro p hp
  simp only [Matrix.Zero, List.mem_map] at hp
  obtain ⟨_, _, h⟩ := hp
  exact h.symm

/-- Reading a zeroed matrix inside its bounds gives 0. -/
theorem get_Zero (M : Matrix K) (row : Nat) (hrow : row = 0 ∨ row = 1) (col : Int)
    (h0 : 0 ≤ col) (h1 : col < M.noCols) : M.Zero.get row col = some 0 := by
  have hlen : col.toNat < M.cols.length := by
    unfold Matrix.noCols at h1
    omega
  have hget : (M.Zero.cols.get? col.toNat) = some ((0 : K), (0 : K)) := by
    simp only [Matrix.Zero, List.get?_eq_getElem?, List.getElem?_map]
    rw [List.getElem?_eq_getElem hlen]
    rfl
  unfold Matrix.get
  rw [if_pos ⟨h0, by rw [noCols_Zero]; exact h1⟩]
  rcases hrow with rfl | rfl
  · simp only [hget, Option.map_some']
  · simp only [hget, Option.map_some']

/-- On an instance whose sensitivity matrix is zero, `getStressSensitivity` for
a `gradIndex ≥ 0` returns the value it returns without a matrix. -/
theorem getStressSensitivity_zero_matrix (m : HardeningMaterial K) (M : Matrix K)
    (gradIndex : Int) (hg : 0 ≤ gradIndex) :
    (getStressSensitivity { m with SHVs := some M.Zero } gradIndex).map Prod.snd
      = (getStressSensitivity { m with SHVs := none } gradIndex).map Prod.snd := by
  unfold getStressSensitivity
  simp only [bind, pure]
  by_cases hlt : gradIndex < M.Zero.noCols
  · have hlt1 : gradIndex < M.noCols := by rw [noCols_Zero] at hlt; exact hlt
    simp only [if_pos hlt, get_Zero M 0 (Or.inl rfl) gradIndex hg hlt1,
      get_Zero M 1 (Or.inr rfl) gradIndex hg hlt1, Option.some_bind]
    split_ifs <;> rfl
  · simp only [if_neg hlt, Option.some_bind]
    split_ifs <;> rfl

/-- Without a sensitivity matrix `getStressSensitivity` never fails. -/
theorem getStressSensitivity_isSome_of_none (m : HardeningMaterial K) (gradIndex : Int)
    (h : m.SHVs = none) : (getStressSensitivity m gradIndex).isSome = true := by
  unfold getStressSensitivity
  simp only [bind, pure, h, Option.some_bind]
  split_ifs <;> rfl

/-- C10, as stated, fails: from the fresh instance with `E = 1`, `sigmaY = 1`,
`Hiso = Hkin = 0`, the call `activateParameter(2)` followed by `revertToStart()`
leaves `parameterID = 2`, so `getInitialTangentSensitivity` and
`getTangentSensitivity` return 1, while they return 0 on a fresh instance with
the same tag and parameters. -/
theorem revertToStart_keeps_active_parameter :
    calls (construct 1 (1 : ℚ) 1 0 0) [Call.activateParameter 2]
      = some (activateParameter (construct 1 (1 : ℚ) 1 0 0) 2).1 ∧
    (getInitialTangentSensitivity
      (revertToStart (activateParameter (construct 1 (1 : ℚ) 1 0 0) 2).1).1 0).2 = 1 ∧
    (getInitialTangentSensitivity (construct 1 (1 : ℚ) 1 0 0) 0).2 = 0 ∧
    (getTangentSensitivity
      (revertToStart (activateParameter (construct 1 (1 : ℚ) 1 0 0) 2).1).1 0).2 = 1 ∧
    (getTangentSensitivity (construct 1 (1 : ℚ) 1 0 0) 0).2 = 0 := by
  refine ⟨rfl, ?_, ?_, ?_, ?_⟩
  · simp [getInitialTangentSensitivity, revertToStart, activateParameter, construct]
  · simp [getInitialTangentSensitivity, revertToStart, construct]
  · norm_num [getTangentSensitivity, revertToStart, activateParameter, construct, DBL_EPSILON]
  · simp [getTangentSensitivity, revertToStart, construct]

/-- C10, amended: for every instance, `revertToStart` returns 0, keeps the tag
and the four parameters, zeroes the committed and the trial history, the trial
strain and the trial stress, sets the trial tangent to `E`, zeroes every entry
of the sensitivity matrix (an allocated matrix stays allocated, with its
columns) and keeps the active parameter: apart from the zero matrix the state
is that of a fresh instance with the same tag and parameters after
`activateParameter(parameterID)`, and the three sensitivity getters return
what they return on that instance (`getStressSensitivity` for
`gradIndex ≥ 0`). -/
theorem revertToStart_state (m : HardeningMaterial K) :
    (revertToStart m).2 = 0 ∧
    ((revertToStart m).1.CplasticStrain = 0 ∧ (revertToStart m).1.Chardening = 0 ∧
     (revertToStart m).1.TplasticStrain = 0 ∧ (revertToStart m).1.Thardening = 0 ∧
     (revertToStart m).1.Tstrain = 0 ∧ (revertToStart m).1.Tstress = 0 ∧
     (revertToStart m).1.Ttangent = m.E) ∧
    (revertToStart m).1.parameterID = m.parameterID ∧
    (revertToStart m).1.SHVs = m.SHVs.map Matrix.Zero ∧
    (∀ M : Matrix K, (revertToStart m).1.SHVs = some M → ∀ p ∈ M.cols, p = ((0 : K), (0 : K))) ∧
    { (revertToStart m).1 with SHVs := none }
      = (activateParameter (construct m.tag m.E m.sigmaY m.Hiso m.Hkin) m.parameterID).1 ∧
    (∀ gradIndex : Int, 0 ≤ gradIndex →
      (getStressSensitivity (revertToStart m).1 gradIndex).map Prod.snd
        = (getStressSensitivity
            (activateParameter (construct m.tag m.E m.sigmaY m.Hiso m.Hkin) m.parameterID).1
            gradIndex).map Prod.snd ∧
      (getStressSensitivity (revertToStart m).1 gradIndex).isSome = true) ∧
    (∀ gradIndex : Int,
      (getTangentSensitivity (revertToStart m).1 gradIndex).2
        = (getTangentSensitivity
            (activateParameter (construct m.tag m.E m.sigmaY m.Hiso m.Hkin) m.parameterID).1
            gradIndex).2 ∧
      (getInitialTangentSensitivity (revertToStart m).1 gradIndex).2
        = (getInitialTangentSensitivity
            (activateParameter (construct m.tag m.E m.sigmaY m.Hiso m.Hkin) m.parameterID).1
            gradIndex).2) := by
  have hfresh : (activateParameter (construct m.tag m.E m.sigmaY m.Hiso m.Hkin)
      m.parameterID).1 = { (revertToStart m).1 with SHVs := none } := by
    unfold revertToStart
    cases m.SHVs <;> rfl
  have hshv : (revertToStart m).1.SHVs = m.SHVs.map Matrix.Zero := by
    unfold revertToStart
    cases m.SHVs <;> rfl
  have hself : (revertToStart m).1
      = { (revertToStart m).1 with SHVs := m.SHVs.map Matrix.Zero } := by
    rw [← hshv]
  refine ⟨rfl, ?_, ?_, hshv, ?_, hfresh.symm, ?_, ?_⟩
  · unfold revertToStart
    cases m.SHVs <;> exact ⟨rfl, rfl, rfl, rfl, rfl, rfl, rfl⟩
  · unfold revertToStart
    cases m.SHVs <;> rfl
  · intro M hM p hp
    rw [hshv] at hM
    cases hS : m.SHVs with
    | none => rw [hS] at hM; simp at hM
    | some M0 =>
      rw [hS] at hM
      simp only [Option.map_some', Option.some.injEq] at hM
      subst hM
      exact cols_Zero M0 p hp
  · intro gradIndex hg
    rw [hfresh]
    have hnone : (getStressSensitivity { (revertToStart m).1 with SHVs := none }
        gradIndex).isSome = true := getStressSensitivity_isSome_of_none _ _ rfl
    cases hS : m.SHVs with
    | none =>
      have h1 : (revertToStart m).1 = { (revertToStart m).1 with SHVs := none } := by
        rw [hself, hS]
        rfl
      rw [← h1] at hnone ⊢
      exact ⟨rfl, hnone⟩
    | some M0 =>
      have h1 : (revertToStart m).1 = { (revertToStart m).1 with SHVs := some M0.Zero } := by
        rw [hself, hS]
        rfl
      have h2 := getStressSensitivity_zero_matrix (revertToStart m).1 M0 gradIndex hg
      rw [← h1] at h2
      refine ⟨h2, ?_⟩
      have h3 := congrArg Option.isSome h2
      simp only [Option.isSome_map'] at h3
      rw [h3]
      exact hnone
  · intro gradIndex
    rw [hfresh]
    constructor
    · unfold getTangentSensitivity
      dsimp only
      split_ifs <;> rfl
    · unfold getInitialTangentSensitivity
      dsimp only
      split_ifs <;> rfl

/-- Witness of the amended C10: the scenario state after a committed plastic
step, with `parameterID = 2` and a sensitivity matrix of one column `(1, 1)`;
after `revertToStart`, `getStressSensitivity(0)` succeeds and the active
parameter is still 2. -/
theorem revertToStart_state_witness :
    (0 : Int) ≤ 0 ∧
    (getStressSensitivity (revertToStart
      ({ scenarioState 1 (27 / 29000) (27 / 29000) (3 / 1000) 60 0 with
        parameterID := 2, SHVs := some ⟨[(1, 1)]⟩ } : HardeningMaterial ℚ)).1 0).isSome = true ∧
    (revertToStart
      ({ scenarioState 1 (27 / 29000) (27 / 29000) (3 / 1000) 60 0 with
        parameterID := 2, SHVs := some ⟨[(1, 1)]⟩ } : HardeningMaterial ℚ)).1.parameterID = 2 :=
  have h := revertToStart_state
    ({ scenarioState 1 (27 / 29000) (27 / 29000) (3 / 1000) 60 0 with
        parameterID := 2, SHVs := some ⟨[(1, 1)]⟩ } : HardeningMaterial ℚ)
  ⟨le_refl 0, (h.2.2.2.2.2.2.1 0 (le_refl 0)).2, h.2.2.1⟩

/-! ## Copy, parameters and receive failure -/

/-- C11: `getCopy` leaves the instance unchanged and returns an instance with
the same tag, parameters, committed history, trial history and trial state,
without a sensitivity matrix (`SHVs` is null) and without an active parameter
(`parameterID = 0`). -/
theorem getCopy_state (m : HardeningMaterial K) :
    (getCopy m).1 = m ∧
    (getCopy m).2 = { m with parameterID := 0, SHVs := none } ∧
    ((getCopy m).2.tag = m.tag ∧ (getCopy m).2.E = m.E ∧ (getCopy m).2.sigmaY = m.sigmaY ∧
     (getCopy m).2.Hiso = m.Hiso ∧ (getCopy m).2.Hkin = m.Hkin) ∧
    ((getCopy m).2.CplasticStrain = m.CplasticStrain ∧
     (getCopy m).2.Chardening = m.Chardening ∧
     (getCopy m).2.TplasticStrain = m.TplasticStrain ∧
     (getCopy m).2.Thardening = m.Thardening) ∧
    ((getCopy m).2.Tstrain = m.Tstrain ∧ (getCopy m).2.Tstress = m.Tstress ∧
     (getCopy m).2.Ttangent = m.Ttangent) ∧
    (getCopy m).2.SHVs = none ∧ (getCopy m).2.parameterID = 0 :=
  ⟨rfl, rfl, ⟨rfl, rfl, rfl, rfl, rfl⟩, ⟨rfl, rfl, rfl, rfl⟩, ⟨rfl, rfl, rfl⟩, rfl, rfl⟩

/-- The value `setParameter` reports and the identifier it registers, for the
four names without alias. -/
theorem setParameter_canonical (m : HardeningMaterial K) (param : Parameter K) (status : Int) :
    setParameter m ["sigmaY"] param status
      = some (m, ⟨some m.sigmaY, param.objects ++ [1]⟩, status) ∧
    setParameter m ["E"] param status
      = some (m, ⟨some m.E, param.objects ++ [2]⟩, status) ∧
    setParameter m ["Hkin"] param status
      = some (m, ⟨some m.Hkin, param.objects ++ [3]⟩, status) ∧
    setParameter m ["Hiso"] param status
      = some (m, ⟨some m.Hiso, param.objects ++ [4]⟩, status) := by
  refine ⟨?_, ?_, ?_, ?_⟩ <;>
    simp [setParameter, Parameter.setValue, Parameter.addObject]

/-- C16: `updateParameter(id, v)` with `id = 1, 2, 3, 4` overwrites `sigmaY`,
`E`, `Hkin`, `Hiso` respectively with `v`, changes no other member and returns
0; with any other `id` it returns `-1` and changes nothing.  The member is the
one whose value `setParameter` reports under that identifier, and the one
whose derivative seed is 1 after `activateParameter(id)`. -/
theorem updateParameter_overwrites_one_field (m : HardeningMaterial K) (v : K) :
    (updateParameter m 1 v = ({ m with sigmaY := v }, 0) ∧
     updateParameter m 2 v = ({ m with E := v }, 0) ∧
     updateParameter m 3 v = ({ m with Hkin := v }, 0) ∧
     updateParameter m 4 v = ({ m with Hiso := v }, 0)) ∧
    (∀ parameterID : Int, parameterID ≠ 1 → parameterID ≠ 2 → parameterID ≠ 3 →
      parameterID ≠ 4 → updateParameter m parameterID v = (m, -1)) ∧
    (∀ (param : Parameter K) (status : Int),
      (setParameter (updateParameter m 1 v).1 ["sigmaY"] param status).map (fun r => r.2.1)
        = some ⟨some v, param.objects ++ [1]⟩ ∧
      (setParameter (updateParameter m 2 v).1 ["E"] param status).map (fun r => r.2.1)
        = some ⟨some v, param.objects ++ [2]⟩ ∧
      (setParameter (updateParameter m 3 v).1 ["Hkin"] param status).map (fun r => r.2.1)
        = some ⟨some v, param.objects ++ [3]⟩ ∧
      (setParameter (updateParameter m 4 v).1 ["Hiso"] param status).map (fun r => r.2.1)
        = some ⟨some v, param.objects ++ [4]⟩) ∧
    ((paramSens (activateParameter m 1).1.parameterID : ParamSens K) = ⟨1, 0, 0, 0⟩ ∧
     (paramSens (activateParameter m 2).1.parameterID : ParamSens K) = ⟨0, 1, 0, 0⟩ ∧
     (paramSens (activateParameter m 3).1.parameterID : ParamSens K) = ⟨0, 0, 1, 0⟩ ∧
     (paramSens (activateParameter m 4).1.parameterID : ParamSens K) = ⟨0, 0, 0, 1⟩) := by
  refine ⟨⟨rfl, rfl, rfl, rfl⟩, ?_, ?_, ⟨rfl, rfl, rfl, rfl⟩⟩
  · intro parameterID h1 h2 h3 h4
    unfold updateParameter
    simp only [if_neg h1, if_neg h2, if_neg h3, if_neg h4, ite_self]
  · intro param status
    have h1 := setParameter_canonical (updateParameter m 1 v).1 param status
    have h2 := setParameter_canonical (updateParameter m 2 v).1 param status
    have h3 := setParameter_canonical (updateParameter m 3 v).1 param status
    have h4 := setParameter_canonical (updateParameter m 4 v).1 param status
    rw [h1.1, h2.2.1, h3.2.2.1, h4.2.2.2]
    exact ⟨rfl, rfl, rfl, rfl⟩

/-- Witness of C16: identifier 7 on the scenario state. -/
theorem updateParameter_overwrites_one_field_witness :
    ((7 : Int) ≠ 1 ∧ (7 : Int) ≠ 2 ∧ (7 : Int) ≠ 3 ∧ (7 : Int) ≠ 4) ∧
    updateParameter (scenarioState 1 0 0 0 0 29000) 7 5
      = (scenarioState 1 0 0 0 0 29000, -1) :=
  ⟨by decide, (updateParameter_overwrites_one_field (scenarioState 1 0 0 0 0 29000) 5).2.1 7
    (by decide) (by decide) (by decide) (by decide)⟩

/-- C17: `setParameter` on an argument list with first element `name`
registers identifier 1 with the value `sigmaY` for `sigmaY`, `fy`, `Fy`,
identifier 2 with the value `E` for `E`, identifier 3 with the value `Hkin` for
`H_kin`, `Hkin`, identifier 4 with the value `Hiso` for `H_iso`, `Hiso`, and
returns what the collaborator returns; for any other name it returns `-1` and
leaves the collaborator as it was.  The instance is unchanged in every case. -/
theorem setParameter_resolves_names (m : HardeningMaterial K) (name : String)
    (rest : List String) (param : Parameter K) (status : Int) :
    ((name = "sigmaY" ∨ name = "fy" ∨ name = "Fy") →
      setParameter m (name :: rest) param status
        = some (m, ⟨some m.sigmaY, param.objects ++ [1]⟩, status)) ∧
    (name = "E" →
      setParameter m (name :: rest) param status
        = some (m, ⟨some m.E, param.objects ++ [2]⟩, status)) ∧
    ((name = "H_kin" ∨ name = "Hkin") →
      setParameter m (name :: rest) param status
        = some (m, ⟨some m.Hkin, param.objects ++ [3]⟩, status)) ∧
    ((name = "H_iso" ∨ name = "Hiso") →
      setParameter m (name :: rest) param status
        = some (m, ⟨some m.Hiso, param.objects ++ [4]⟩, status)) ∧
    (name ∉ ["sigmaY", "fy", "Fy", "E", "H_kin", "Hkin", "H_iso", "Hiso"] →
      setParameter m (name :: rest) param status = some (m, param, -1)) ∧
    (setParameter m (name :: rest) param status).map (fun r => r.1) = some m := by
  refine ⟨?_, ?_, ?_, ?_, ?_, ?_⟩
  · intro h
    simp [setParameter, Parameter.setValue, Parameter.addObject, h]
  · intro h
    subst h
    simp [setParameter, Parameter.setValue, Parameter.addObject]
  · intro h
    rcases h with rfl | rfl <;>
      simp [setParameter, Parameter.setValue, Parameter.addObject]
  · intro h
    rcases h with rfl | rfl <;>
      simp [setParameter, Parameter.setValue, Parameter.addObject]
  · intro h
    simp only [List.mem_cons, List.mem_singleton, List.not_mem_nil, or_false, not_or] at h
    obtain ⟨h1, h2, h3, h4, h5, h6, h7, h8⟩ := h
    simp [setParameter, h1, h2, h3, h4, h5, h6, h7, h8]
  · unfold setParameter
    simp only [List.head?_cons, bind, pure, Option.some_bind, Parameter.addObject]
    split_ifs <;> rfl

/-- Witness of C17: the alias `fy`, the name `H_iso` and the unknown name
`eta` on the scenario state, with an empty collaborator that answers 0. -/
theorem setParameter_resolves_names_witness :
    setParameter (scenarioState 1 0 0 0 0 29000) ["fy"] ⟨none, []⟩ 0
      = some (scenarioState 1 0 0 0 0 29000, ⟨some 60, [1]⟩, 0) ∧
    setParameter (scenarioState 1 0 0 0 0 29000) ["H_iso", "x"] ⟨none, []⟩ 0
      = some (scenarioState 1 0 0 0 0 29000, ⟨some 0, [4]⟩, 0) ∧
    setParameter (scenarioState 1 0 0 0 0 29000) ["eta"] ⟨none, []⟩ 0
      = some (scenarioState 1 0 0 0 0 29000, ⟨none, []⟩, -1) :=
  ⟨(setParameter_resolves_names (scenarioState 1 0 0 0 0 29000) "fy" [] ⟨none, []⟩ 0).1
      (Or.inr (Or.inl rfl)),
   (setParameter_resolves_names (scenarioState 1 0 0 0 0 29000) "H_iso" ["x"] ⟨none, []⟩ 0).2.2.2.1
      (Or.inl rfl),
   (setParameter_resolves_names (scenarioState 1 0 0 0 0 29000) "eta" [] ⟨none, []⟩ 0).2.2.2.2.1
      (by decide)⟩

/-- C18: when the channel reports a negative status `res`, `recvSelf` returns
`res`, sets `E` and the tag to 0 and changes no other member, whatever the
vector holds. -/
theorem recvSelf_failure [FloorRing K] (m : HardeningMaterial K) (res : Int) (data : List K)
    (hres : res < 0) :
    recvSelf m res data = ({ m with E := 0, tag := 0 }, res) := by
  unfold recvSelf
  rw [if_pos hres]

/-- Witness of C18: status `-1` on the scenario state after a committed
plastic step, with a vector of eleven nines. -/
theorem recvSelf_failure_witness :
    (-1 : Int) < 0 ∧
    recvSelf (scenarioState 1 (27 / 29000) (27 / 29000) (3 / 1000) 60 0) (-1)
        (List.replicate 11 9)
      = ({ scenarioState 1 (27 / 29000) (27 / 29000) (3 / 1000) 60 0 with
            E := 0, tag := 0 }, -1) :=
  ⟨by decide, recvSelf_failure _ (-1) _ (by decide)⟩

/-! ## Sensitivity of the tangent -/

/-- The value of `getTangentSensitivity` in closed form, on either step. -/
theorem getTangentSensitivity_closed_form (m : HardeningMaterial K) (gradIndex : Int)
    (hD : m.E + m.Hiso + m.Hkin ≠ 0) :
    (elasticAt m m.Tstrain →
      (getTangentSensitivity m gradIndex).2 = if m.parameterID = 2 then 1 else 0) ∧
    (¬ elasticAt m m.Tstrain →
      (getTangentSensitivity m gradIndex).2 =
        if m.parameterID = 2 then (m.Hkin + m.Hiso) ^ 2 / (m.E + m.Hkin + m.Hiso) ^ 2
        else if m.parameterID = 3 ∨ m.parameterID = 4 then
          m.E ^ 2 / (m.E + m.Hkin + m.Hiso) ^ 2
        else 0) := by
  have hD1 : m.E + m.Hkin + m.Hiso ≠ 0 := by
    intro h
    apply hD
    rw [← h]
    ring
  constructor
  · intro hf
    unfold elasticAt yieldAt xsiAt at hf
    unfold getTangentSensitivity
    dsimp only
    by_cases h2 : m.parameterID = 2
    · have hr : ¬ (m.parameterID < 2 ∨ m.parameterID > 4) := by omega
      rw [if_neg hr, if_pos hf, if_pos h2, if_pos h2]
    · rw [if_neg h2]
      split_ifs <;> rfl
  · intro hf
    unfold elasticAt yieldAt xsiAt at hf
    unfold getTangentSensitivity
    dsimp only
    by_cases hr : m.parameterID < 2 ∨ m.parameterID > 4
    · have h2 : ¬ m.parameterID = 2 := by omega
      have h34 : ¬ (m.parameterID = 3 ∨ m.parameterID = 4) := by omega
      rw [if_pos hr, if_neg h2, if_neg h34]
    · rw [if_neg hr, if_neg hf]
      by_cases h2 : m.parameterID = 2
      · rw [if_pos h2, if_pos h2]
        field_simp
        ring
      · have h34 : m.parameterID = 3 ∨ m.parameterID = 4 := by omega
        rw [if_neg h2, if_neg h2, if_pos h34]
        rcases h34 with h3 | h4
        · rw [if_pos h3]
          field_simp
          ring
        · have h3 : ¬ m.parameterID = 3 := by omega
          rw [if_neg h3, if_pos h4]
          field_simp
          ring

/-- The state after `updateParameter` for an identifier that selects no
member is the state before. -/
theorem updateParameter_other (m : HardeningMaterial K) (parameterID : Int) (v : K)
    (h1 : parameterID ≠ 1) (h2 : parameterID ≠ 2) (h3 : parameterID ≠ 3)
    (h4 : parameterID ≠ 4) : (updateParameter m parameterID v).1 = m := by
  unfold updateParameter
  simp only [if_neg h1, if_neg h2, if_neg h3, if_neg h4, ite_self]

/-- The derivative of the elastic tangent `E` with respect to the member that
`parameterID` selects. -/
theorem hasDerivAt_elastic_tangent (m : HardeningMaterial ℝ) :
    HasDerivAt (fun θ : ℝ => (updateParameter m m.parameterID θ).1.E)
      (if m.parameterID = 2 then 1 else 0) (paramValue m m.parameterID) := by
  by_cases h2 : m.parameterID = 2
  · rw [if_pos h2]
    have hfun : (fun θ : ℝ => (updateParameter m m.parameterID θ).1.E) = fun θ => θ := by
      funext θ
      simp [updateParameter, h2]
    rw [hfun]
    exact hasDerivAt_id _
  · rw [if_neg h2]
    have hfun : (fun θ : ℝ => (updateParameter m m.parameterID θ).1.E) = fun _ => m.E := by
      funext θ
      unfold updateParameter
      split_ifs <;> rfl
    rw [hfun]
    exact hasDerivAt_const _ _

/-- The derivative of the plastic tangent `E·(Hkin+Hiso)/(E+Hkin+Hiso)` with
respect to the member that `parameterID` selects. -/
theorem hasDerivAt_plastic_tangent (m : HardeningMaterial ℝ)
    (hD : m.E + m.Hkin + m.Hiso ≠ 0) :
    HasDerivAt (fun θ : ℝ => plasticTangent (updateParameter m m.parameterID θ).1)
      (if m.parameterID = 2 then (m.Hkin + m.Hiso) ^ 2 / (m.E + m.Hkin + m.Hiso) ^ 2
        else if m.parameterID = 3 ∨ m.parameterID = 4 then
          m.E ^ 2 / (m.E + m.Hkin + m.Hiso) ^ 2
        else 0) (paramValue m m.parameterID) := by
  by_cases h2 : m.parameterID = 2
  · rw [if_pos h2]
    have hfun : (fun θ : ℝ => plasticTangent (updateParameter m m.parameterID θ).1)
        = fun θ => θ * (m.Hkin + m.Hiso) / (θ + m.Hkin + m.Hiso) := by
      funext θ
      simp [updateParameter, plasticTangent, h2]
    have hv : paramValue m m.parameterID = m.E := by simp [paramValue, h2]
    rw [hfun, hv]
    have h := ((hasDerivAt_id m.E).mul_const (m.Hkin + m.Hiso)).div
      (((hasDerivAt_id m.E).add_const m.Hkin).add_const m.Hiso) hD
    convert h using 1
    simp only [id]
    field_simp
    ring
  · rw [if_neg h2]
    by_cases h3 : m.parameterID = 3
    · rw [if_pos (Or.inl h3)]
      have hfun : (fun θ : ℝ => plasticTangent (updateParameter m m.parameterID θ).1)
          = fun θ => m.E * (θ + m.Hiso) / (m.E + θ + m.Hiso) := by
        funext θ
        simp [updateParameter, plasticTangent, h3]
      have hv : paramValue m m.parameterID = m.Hkin := by simp [paramValue, h3]
      rw [hfun, hv]
      have h := (((hasDerivAt_id m.Hkin).add_const m.Hiso).const_mul m.E).div
        (((hasDerivAt_id m.Hkin).const_add m.E).add_const m.Hiso) hD
      convert h using 1
      simp only [id]
      field_simp
      ring
    · by_cases h4 : m.parameterID = 4
      · rw [if_pos (Or.inr h4)]
        have hfun : (fun θ : ℝ => plasticTangent (updateParameter m m.parameterID θ).1)
            = fun θ => m.E * (m.Hkin + θ) / (m.E + m.Hkin + θ) := by
          funext θ
          simp [updateParameter, plasticTangent, h4]
        have hv : paramValue m m.parameterID = m.Hiso := by simp [paramValue, h4]
        rw [hfun, hv]
        have h := (((hasDerivAt_id m.Hiso).const_add m.Hkin).const_mul m.E).div
          ((hasDerivAt_id m.Hiso).const_add (m.E + m.Hkin)) hD
        convert h using 1
        simp only [id]
        field_simp
        ring
      · have h34 : ¬ (m.parameterID = 3 ∨ m.parameterID = 4) := by
          rintro (h | h)
          · exact h3 h
          · exact h4 h
        rw [if_neg h34]
        have hfun : (fun θ : ℝ => plasticTangent (updateParameter m m.parameterID θ).1)
            = fun _ => plasticTangent m := by
          funext θ
          by_cases h1 : m.parameterID = 1
          · simp [updateParameter, plasticTangent, h1]
          · rw [updateParameter_other m m.parameterID θ h1 h2 h3 h4]
        rw [hfun]
        exact hasDerivAt_const _ _

/-- C13: `getTangentSensitivity` in closed form and as a derivative.  For
`E+Hiso+Hkin ≠ 0`: on the elastic step (`f ≤ −DBL_EPSILON·E`) it returns 1 if
`E` is active (`parameterID = 2`) and 0 otherwise; on the plastic step it
returns `(Hkin+Hiso)²/(E+Hkin+Hiso)²` if `E` is active,
`E²/(E+Hkin+Hiso)²` if `Hkin` or `Hiso` is active (`parameterID = 3, 4`) and 0
otherwise.  In both cases the value is the derivative of the tangent the
step stores (`E`, respectively `E·(Hkin+Hiso)/(E+Hkin+Hiso)`) with respect to
the member that `updateParameter` overwrites for `parameterID`. -/
theorem getTangentSensitivity_is_derivative (m : HardeningMaterial ℝ) (gradIndex : Int)
    (hD : m.E + m.Hiso + m.Hkin ≠ 0) :
    (elasticAt m m.Tstrain →
      (getTangentSensitivity m gradIndex).2 = (if m.parameterID = 2 then 1 else 0) ∧
      HasDerivAt (fun θ : ℝ => (updateParameter m m.parameterID θ).1.E)
        (getTangentSensitivity m gradIndex).2 (paramValue m m.parameterID)) ∧
    (¬ elasticAt m m.Tstrain →
      (getTangentSensitivity m gradIndex).2 =
        (if m.parameterID = 2 then (m.Hkin + m.Hiso) ^ 2 / (m.E + m.Hkin + m.Hiso) ^ 2
          else if m.parameterID = 3 ∨ m.parameterID = 4 then
            m.E ^ 2 / (m.E + m.Hkin + m.Hiso) ^ 2
          else 0) ∧
      HasDerivAt (fun θ : ℝ => plasticTangent (updateParameter m m.parameterID θ).1)
        (getTangentSensitivity m gradIndex).2 (paramValue m m.parameterID)) := by
  have hD1 : m.E + m.Hkin + m.Hiso ≠ 0 := by
    intro h
    apply hD
    rw [← h]
    ring
  have hc := getTangentSensitivity_closed_form m gradIndex hD
  constructor
  · intro hf
    refine ⟨hc.1 hf, ?_⟩
    rw [hc.1 hf]
    exact hasDerivAt_elastic_tangent m
  · intro hf
    refine ⟨hc.2 hf, ?_⟩
    rw [hc.2 hf]
    exact hasDerivAt_plastic_tangent m hD1

/-- The sample state at strain 1 is on the plastic step. -/
theorem sampleState_plastic (parameterID : Int) (SHVs : Option (Matrix K)) :
    ¬ elasticAt (sampleState K 1 parameterID SHVs) (sampleState K 1 parameterID SHVs).Tstrain := by
  have he : (0 : K) < DBL_EPSILON K := DBL_EPSILON_pos
  have h9 : yieldAt (sampleState K 1 parameterID SHVs) 1 = 9 := by
    simp only [yieldAt, xsiAt, sampleState]
    norm_num
  show ¬ yieldAt (sampleState K 1 parameterID SHVs) 1 ≤ -DBL_EPSILON K * 10
  rw [h9]
  intro h
  linarith

/-- Witness of C13: the sample state at strain 1 with `E` active is on the
plastic step and the tangent sensitivity is `(3+2)²/(10+3+2)² = 1/9`. -/
theorem getTangentSensitivity_is_derivative_witness :
    (sampleState ℝ 1 2 none).E + (sampleState ℝ 1 2 none).Hiso + (sampleState ℝ 1 2 none).Hkin ≠ 0 ∧
    ¬ elasticAt (sampleState ℝ 1 2 none) (sampleState ℝ 1 2 none).Tstrain ∧
    (getTangentSensitivity (sampleState ℝ 1 2 none) 0).2 = 1 / 9 := by
  have hD : (sampleState ℝ 1 2 none).E + (sampleState ℝ 1 2 none).Hiso
      + (sampleState ℝ 1 2 none).Hkin ≠ 0 := by
    norm_num [sampleState]
  have hp := sampleState_plastic (K := ℝ) 2 none
  refine ⟨hD, hp, ?_⟩
  rw [((getTangentSensitivity_is_derivative (sampleState ℝ 1 2 none) 0 hD).2 hp).1]
  norm_num [sampleState]

/-! ## The sensitivity matrix: bounds and accumulation -/

/-- A read of the matrix succeeds exactly when the row is 0 or 1 and the
column is inside the matrix. -/
theorem get_isSome_iff (M : Matrix K) (row : Nat) (col : Int) :
    (M.get row col).isSome = true ↔ (row = 0 ∨ row = 1) ∧ 0 ≤ col ∧ col < M.noCols := by
  unfold Matrix.get
  by_cases h : 0 ≤ col ∧ col < M.noCols
  · have hlen : col.toNat < M.cols.length := by
      have := h.2
      unfold Matrix.noCols at this
      omega
    rw [if_pos h]
    match row with
    | 0 => simp [List.getElem?_eq_getElem hlen, h.1, h.2]
    | 1 => simp [List.getElem?_eq_getElem hlen, h.1, h.2]
    | (k + 2) => simp
  · rw [if_neg h]
    simp only [Option.isSome_none, Bool.false_eq_true, false_iff]
    intro hh
    exact h hh.2

/-- An update of the matrix succeeds exactly when the row is 0 or 1 and the
column is inside the matrix. -/
theorem addTo_isSome_iff (M : Matrix K) (row : Nat) (col : Int) (v : K) :
    (M.addTo row col v).isSome = true ↔ (row = 0 ∨ row = 1) ∧ 0 ≤ col ∧ col < M.noCols := by
  unfold Matrix.addTo
  by_cases h : 0 ≤ col ∧ col < M.noCols
  · rw [if_pos h]
    match row with
    | 0 => simp [h.1, h.2]
    | 1 => simp [h.1, h.2]
    | (k + 2) => simp
  · rw [if_neg h]
    simp only [Option.isSome_none, Bool.false_eq_true, false_iff]
    intro hh
    exact h hh.2

/-- The two updates of the plastic step of `commitSensitivity` on a column
inside the matrix: they succeed, keep the number of columns, add `v0` to the
entry of row 0 and `v1` to the entry of row 1 of that column, and keep every
other column. -/
theorem addTo_addTo (M : Matrix K) (col : Int) (v0 v1 p a : K)
    (h0 : 0 ≤ col) (h1 : col < M.noCols)
    (hp : M.get 0 col = some p) (ha : M.get 1 col = some a) :
    ∃ M2 : Matrix K, (M.addTo 0 col v0).bind (fun M1 => M1.addTo 1 col v1) = some M2 ∧
      M2.noCols = M.noCols ∧ M2.get 0 col = some (p + v0) ∧ M2.get 1 col = some (a + v1) ∧
      ∀ (row : Nat) (c : Int), c ≠ col → M2.get row c = M.get row c := by
  have hlen : col.toNat < M.cols.length := by
    unfold Matrix.noCols at h1
    omega
  have hin : 0 ≤ col ∧ col < M.noCols := ⟨h0, h1⟩
  simp only [Matrix.get, if_pos hin, List.get?_eq_getElem?, List.getElem?_eq_getElem hlen,
    Option.map_some', Option.some.injEq] at hp ha
  refine ⟨⟨List.modify (fun q => (q.1, q.2 + v1)) col.toNat
    (List.modify (fun q => (q.1 + v0, q.2)) col.toNat M.cols)⟩, ?_, ?_, ?_, ?_, ?_⟩
  · have hin1 : 0 ≤ col ∧ col < (M.cols.length : Int) := hin
    simp only [Matrix.addTo, Matrix.noCols, if_pos hin1, Option.some_bind, List.length_modify]
  · simp only [Matrix.noCols, List.length_modify]
  · simp only [Matrix.get, Matrix.noCols, List.length_modify]
    rw [if_pos (by unfold Matrix.noCols at h1; exact ⟨h0, h1⟩)]
    simp only [List.get?_eq_getElem?, List.getElem?_modify_eq, List.getElem?_eq_getElem hlen,
      Option.map_some', Option.map_eq_map, hp]
  · simp only [Matrix.get, Matrix.noCols, List.length_modify]
    rw [if_pos (by unfold Matrix.noCols at h1; exact ⟨h0, h1⟩)]
    simp only [List.get?_eq_getElem?, List.getElem?_modify_eq, List.getElem?_eq_getElem hlen,
      Option.map_some', Option.map_eq_map, ha]
  · intro row c hc
    simp only [Matrix.get, Matrix.noCols, List.length_modify]
    by_cases hcin : 0 ≤ c ∧ c < (M.cols.length : Int)
    · have hne : col.toNat ≠ c.toNat := by omega
      simp only [if_pos hcin, List.get?_eq_getElem?, List.getElem?_modify_ne _ _ hne]
    · simp only [if_neg hcin]

/-- The body of `commitSensitivity`, written with the helper definitions. -/
theorem commitSensitivity_eq (m : HardeningMaterial K) (d : K) (gradIndex numGrads : Int) :
    commitSensitivity m d gradIndex numGrads
      = if gradIndex ≥ (allocated m numGrads).noCols then
          some ({ m with SHVs := some (allocated m numGrads) }, 0)
        else
          ((allocated m numGrads).get 0 gradIndex).bind fun p =>
          ((allocated m numGrads).get 1 gradIndex).bind fun a =>
          if elasticAt m m.Tstrain then
            some ({ m with SHVs := some (allocated m numGrads) }, 0)
          else
            ((allocated m numGrads).addTo 0 gradIndex
              (dGammaSensitivityAt m d p a * ((signAt m m.Tstrain : Int) : K))).bind fun M1 =>
            (M1.addTo 1 gradIndex (dGammaSensitivityAt m d p a)).bind fun M2 =>
            some ({ m with SHVs := some M2 }, 0) := by
  rfl

/-- The first test of `commitSensitivity`: a `gradIndex` at or beyond the
number of columns ends the call; the matrix is the one already there or the
zero matrix just allocated. -/
theorem commitSensitivity_out_of_range (m : HardeningMaterial K) (d : K)
    (gradIndex numGrads : Int) (h : gradIndex ≥ (allocated m numGrads).noCols) :
    commitSensitivity m d gradIndex numGrads
      = some ({ m with SHVs := some (allocated m numGrads) }, 0) := by
  rw [commitSensitivity_eq, if_pos h]

/-- The elastic step of `commitSensitivity` for a column inside the matrix. -/
theorem commitSensitivity_elastic (m : HardeningMaterial K) (d : K)
    (gradIndex numGrads : Int) (hg0 : 0 ≤ gradIndex)
    (hg1 : gradIndex < (allocated m numGrads).noCols) (hf : elasticAt m m.Tstrain) :
    commitSensitivity m d gradIndex numGrads
      = some ({ m with SHVs := some (allocated m numGrads) }, 0) := by
  have h0 := (get_isSome_iff (allocated m numGrads) 0 gradIndex).mpr ⟨Or.inl rfl, hg0, hg1⟩
  have h1 := (get_isSome_iff (allocated m numGrads) 1 gradIndex).mpr ⟨Or.inr rfl, hg0, hg1⟩
  obtain ⟨p, hp⟩ := Option.isSome_iff_exists.mp h0
  obtain ⟨a, ha⟩ := Option.isSome_iff_exists.mp h1
  rw [commitSensitivity_eq, if_neg (not_le.mpr hg1), hp, ha]
  simp only [Option.some_bind]
  rw [if_pos hf]

/-- The plastic step of `commitSensitivity` for a column inside the matrix, with
`p` and `a` the entries of that column: the two updates with the local
`dGammaSensitivity`, then the return value 0. -/
theorem commitSensitivity_plastic (m : HardeningMaterial K) (d : K)
    (gradIndex numGrads : Int) (p a : K)
    (hg1 : gradIndex < (allocated m numGrads).noCols)
    (hp : (allocated m numGrads).get 0 gradIndex = some p)
    (ha : (allocated m numGrads).get 1 gradIndex = some a)
    (hf : ¬ elasticAt m m.Tstrain) :
    commitSensitivity m d gradIndex numGrads
      = ((allocated m numGrads).addTo 0 gradIndex
            (dGammaSensitivityAt m d p a * ((signAt m m.Tstrain : Int) : K))).bind fun M1 =>
          (M1.addTo 1 gradIndex (dGammaSensitivityAt m d p a)).bind fun M2 =>
          some ({ m with SHVs := some M2 }, 0) := by
  rw [commitSensitivity_eq, if_neg (not_le.mpr hg1), hp, ha]
  simp only [Option.some_bind]
  rw [if_neg hf]

/-- The local `dGammaSensitivity` as the quotient rule writes it. -/
theorem dGammaSensitivityAt_eq (m : HardeningMaterial K) (d p a : K) :
    dGammaSensitivityAt m d p a
      = ((((paramSens m.parameterID).ESensitivity * (m.Tstrain - m.CplasticStrain)
              + m.E * (d - p) - (paramSens m.parameterID).HkinSensitivity * m.CplasticStrain
              - m.Hkin * p) * (if xsiAt m m.Tstrain < 0 then -1 else 1)
            - (paramSens m.parameterID).SigmaYSensitivity
            - (paramSens m.parameterID).HisoSensitivity * m.Chardening - m.Hiso * a)
          * (m.E + m.Hkin + m.Hiso)
          - yieldAt m m.Tstrain * ((paramSens m.parameterID).ESensitivity
              + (paramSens m.parameterID).HkinSensitivity
              + (paramSens m.parameterID).HisoSensitivity))
        / (m.E + m.Hkin + m.Hiso) ^ 2 := by
  unfold dGammaSensitivityAt
  simp only [signAt_cast]
  rw [sq]
  congr 1
  ring

/-- C14: `commitSensitivity` accumulates on the plastic step.  For
`E+Hiso+Hkin ≠ 0`, a column `0 ≤ gradIndex <` number of columns of the matrix
(the one already there, or the zero matrix with `numGrads` columns this call
allocates) with entries `p` (row 0) and `a` (row 1) before the call, the
strain sensitivity `d` and the seeds `(E', sigmaY', Hkin', Hiso')` of the
active parameter, let
`fSens = (E'·(Tstrain − CplasticStrain) + E·(d − p) − Hkin'·CplasticStrain
− Hkin·p)·sign − sigmaY' − Hiso'·Chardening − Hiso·a` and
`dGammaSens = (fSens·(E+Hkin+Hiso) − f·(E'+Hkin'+Hiso'))/(E+Hkin+Hiso)²`.
The call returns 0, changes no member but the matrix, leaves the entries
`p + dGammaSens·sign` and `a + dGammaSens` in that column and keeps every
other column. -/
theorem commitSensitivity_accumulates (m : HardeningMaterial K) (d : K)
    (gradIndex numGrads : Int) (p a : K)
    (_hD : m.E + m.Hiso + m.Hkin ≠ 0)
    (hg0 : 0 ≤ gradIndex) (hg1 : gradIndex < (allocated m numGrads).noCols)
    (hp : (allocated m numGrads).get 0 gradIndex = some p)
    (ha : (allocated m numGrads).get 1 gradIndex = some a)
    (hf : ¬ yieldAt m m.Tstrain ≤ -DBL_EPSILON K * m.E) :
    let ps : ParamSens K := paramSens m.parameterID
    let sign : K := if xsiAt m m.Tstrain < 0 then -1 else 1
    let fSens := (ps.ESensitivity * (m.Tstrain - m.CplasticStrain) + m.E * (d - p)
        - ps.HkinSensitivity * m.CplasticStrain - m.Hkin * p) * sign
      - ps.SigmaYSensitivity - ps.HisoSensitivity * m.Chardening - m.Hiso * a
    let dGammaSens := (fSens * (m.E + m.Hkin + m.Hiso)
        - yieldAt m m.Tstrain * (ps.ESensitivity + ps.HkinSensitivity + ps.HisoSensitivity))
      / (m.E + m.Hkin + m.Hiso) ^ 2
    ∃ M2 : Matrix K,
      commitSensitivity m d gradIndex numGrads = some ({ m with SHVs := some M2 }, 0) ∧
      M2.noCols = (allocated m numGrads).noCols ∧
      M2.get 0 gradIndex = some (p + dGammaSens * sign) ∧
      M2.get 1 gradIndex = some (a + dGammaSens) ∧
      ∀ (row : Nat) (c : Int), c ≠ gradIndex →
        M2.get row c = (allocated m numGrads).get row c := by
  intro ps sign fSens dGammaSens
  have hdG : dGammaSensitivityAt m d p a = dGammaSens := dGammaSensitivityAt_eq m d p a
  have hsign : ((signAt m m.Tstrain : Int) : K) = sign := signAt_cast m m.Tstrain
  obtain ⟨M2, hM2, hcols, h0, h1, hother⟩ := addTo_addTo (allocated m numGrads) gradIndex
    (dGammaSens * sign) dGammaSens p a hg0 hg1 hp ha
  refine ⟨M2, ?_, hcols, h0, h1, hother⟩
  rw [commitSensitivity_plastic m d gradIndex numGrads p a hg1 hp ha hf, hdG, hsign]
  cases h3 : (allocated m numGrads).addTo 0 gradIndex (dGammaSens * sign) with
  | none => rw [h3] at hM2; simp at hM2
  | some M1 =>
    rw [h3] at hM2
    simp only [Option.some_bind] at hM2 ⊢
    rw [hM2]
    rfl

/-- Witness of C14: the sample state at strain 1 with no active parameter and
the matrix with columns `(5, 7)`, `(1, 1)`; `commitSensitivity(1, 0, 2)` leaves
`5 − 23/5 = 2/5` in row 0 of column 0. -/
theorem commitSensitivity_accumulates_witness :
    (allocated (sampleState ℚ 1 0 (some ⟨[(5, 7), (1, 1)]⟩)) 2).get 0 0 = some 5 ∧
    (allocated (sampleState ℚ 1 0 (some ⟨[(5, 7), (1, 1)]⟩)) 2).get 1 0 = some 7 ∧
    (commitSensitivity (sampleState ℚ 1 0 (some ⟨[(5, 7), (1, 1)]⟩)) 1 0 2).bind
      (fun r => r.1.SHVs.bind (fun M => M.get 0 0)) = some (2 / 5) := by
  have hp : (allocated (sampleState ℚ 1 0 (some ⟨[(5, 7), (1, 1)]⟩)) 2).get 0 0 = some 5 := by
    simp [allocated, sampleState, Matrix.get, Matrix.noCols]
  have ha : (allocated (sampleState ℚ 1 0 (some ⟨[(5, 7), (1, 1)]⟩)) 2).get 1 0 = some 7 := by
    simp [allocated, sampleState, Matrix.get, Matrix.noCols]
  refine ⟨hp, ha, ?_⟩
  obtain ⟨M2, hM2, -, h0, -, -⟩ := commitSensitivity_accumulates
    (sampleState ℚ 1 0 (some ⟨[(5, 7), (1, 1)]⟩)) 1 0 2 5 7
    (by norm_num [sampleState]) (le_refl 0)
    (by simp [allocated, sampleState, Matrix.noCols]) hp ha
    (sampleState_plastic 0 _)
  rw [hM2]
  simp only [Option.some_bind]
  rw [h0]
  have hx : ¬ xsiAt (sampleState ℚ 1 0 (some ⟨[(5, 7), (1, 1)]⟩))
      (sampleState ℚ 1 0 (some ⟨[(5, 7), (1, 1)]⟩)).Tstrain < 0 := by
    norm_num [xsiAt, sampleState]
  have hy : yieldAt (sampleState ℚ 1 0 (some ⟨[(5, 7), (1, 1)]⟩))
      (sampleState ℚ 1 0 (some ⟨[(5, 7), (1, 1)]⟩)).Tstrain = 9 := by
    norm_num [yieldAt, xsiAt, sampleState]
  rw [if_neg hx, hy]
  norm_num [sampleState, paramSens]

/-- The body of `getStressSensitivity`, written with the helper definitions. -/
theorem getStressSensitivity_eq (m : HardeningMaterial K) (gradIndex : Int) :
    getStressSensitivity m gradIndex
      = (historySens m gradIndex).bind fun pa => some (m, stressSensitivityAt m pa.1 pa.2) := by
  have key : ∀ p a : K,
      (if |m.E * (m.Tstrain - m.CplasticStrain) - m.Hkin * m.CplasticStrain|
            - (m.sigmaY + m.Hiso * m.Chardening) ≤ -DBL_EPSILON K * m.E then
          some (m, (paramSens m.parameterID).ESensitivity * (m.Tstrain - m.CplasticStrain)
            - m.E * p)
        else some (m, stressSensitivityAt m p a))
      = some (m, stressSensitivityAt m p a) := by
    intro p a
    split_ifs with hf
    · unfold stressSensitivityAt yieldAt xsiAt
      dsimp only
      rw [if_pos hf]
    · rfl
  have hbody : ∀ pa : K × K,
      (if |m.E * (m.Tstrain - m.CplasticStrain) - m.Hkin * m.CplasticStrain|
            - (m.sigmaY + m.Hiso * m.Chardening) ≤ -DBL_EPSILON K * m.E then
          some (m, (paramSens m.parameterID).ESensitivity * (m.Tstrain - m.CplasticStrain)
            - m.E * pa.1)
        else some (m, stressSensitivityAt m pa.1 pa.2))
      = some (m, stressSensitivityAt m pa.1 pa.2) := fun pa => key pa.1 pa.2
  have hfun : getStressSensitivity m gradIndex
      = (historySens m gradIndex).bind fun pa =>
          (if |m.E * (m.Tstrain - m.CplasticStrain) - m.Hkin * m.CplasticStrain|
                - (m.sigmaY + m.Hiso * m.Chardening) ≤ -DBL_EPSILON K * m.E then
              some (m, (paramSens m.parameterID).ESensitivity * (m.Tstrain - m.CplasticStrain)
                - m.E * pa.1)
            else some (m, stressSensitivityAt m pa.1 pa.2)) := by
    unfold getStressSensitivity historySens
    cases m.SHVs with
    | none =>
      simp only [bind, pure, Option.some_bind]
      by_cases hf : |m.E * (m.Tstrain - m.CplasticStrain) - m.Hkin * m.CplasticStrain|
          - (m.sigmaY + m.Hiso * m.Chardening) ≤ -DBL_EPSILON K * m.E
      · rw [if_pos hf, if_pos hf]
      · rw [if_neg hf, if_neg hf]
        unfold stressSensitivityAt yieldAt xsiAt
        dsimp only
        rw [if_neg hf]
        rfl
    | some M =>
      simp only [bind, pure]
      by_cases hlt : gradIndex < M.noCols
      · simp only [if_pos hlt]
        cases M.get 0 gradIndex with
        | none => rfl
        | some p =>
          cases M.get 1 gradIndex with
          | none => rfl
          | some a =>
            simp only [Option.some_bind]
            by_cases hf : |m.E * (m.Tstrain - m.CplasticStrain) - m.Hkin * m.CplasticStrain|
          - (m.sigmaY + m.Hiso * m.Chardening) ≤ -DBL_EPSILON K * m.E
            · rw [if_pos hf, if_pos hf]
            · rw [if_neg hf, if_neg hf]
              unfold stressSensitivityAt yieldAt xsiAt
              dsimp only
              rw [if_neg hf]
              rfl
      · simp only [if_neg hlt, Option.some_bind]
        by_cases hf : |m.E * (m.Tstrain - m.CplasticStrain) - m.Hkin * m.CplasticStrain|
          - (m.sigmaY + m.Hiso * m.Chardening) ≤ -DBL_EPSILON K * m.E
        · rw [if_pos hf, if_pos hf]
        · rw [if_neg hf, if_neg hf]
          unfold stressSensitivityAt yieldAt xsiAt
          dsimp only
          rw [if_neg hf]
          rfl
  rw [hfun]
  congr 1
  funext pa
  exact hbody pa

/-- For `gradIndex ≥ 0` the reads of `getStressSensitivity` are inside the
matrix. -/
theorem historySens_isSome (m : HardeningMaterial K) (gradIndex : Int) (hg : 0 ≤ gradIndex) :
    (historySens m gradIndex).isSome = true := by
  unfold historySens
  cases m.SHVs with
  | none => rfl
  | some M =>
    simp only [bind, pure]
    by_cases hlt : gradIndex < M.noCols
    · have h0 := (get_isSome_iff M 0 gradIndex).mpr ⟨Or.inl rfl, hg, hlt⟩
      have h1 := (get_isSome_iff M 1 gradIndex).mpr ⟨Or.inr rfl, hg, hlt⟩
      obtain ⟨p, hp⟩ := Option.isSome_iff_exists.mp h0
      obtain ⟨a, ha⟩ := Option.isSome_iff_exists.mp h1
      rw [if_pos hlt, hp, ha]
      rfl
    · rw [if_neg hlt]
      rfl

/-- For `gradIndex ≥ 0` the call `commitSensitivity` succeeds: it returns 0 and
changes no member but the sensitivity matrix. -/
theorem commitSensitivity_succeeds (m : HardeningMaterial K) (d : K)
    (gradIndex numGrads : Int) (hg : 0 ≤ gradIndex) :
    ∃ M2 : Matrix K,
      commitSensitivity m d gradIndex numGrads = some ({ m with SHVs := some M2 }, 0) := by
  by_cases hr : gradIndex ≥ (allocated m numGrads).noCols
  · exact ⟨_, commitSensitivity_out_of_range m d gradIndex numGrads hr⟩
  · have hlt := not_le.mp hr
    by_cases hf : elasticAt m m.Tstrain
    · exact ⟨_, commitSensitivity_elastic m d gradIndex numGrads hg hlt hf⟩
    · have h0 := (get_isSome_iff (allocated m numGrads) 0 gradIndex).mpr ⟨Or.inl rfl, hg, hlt⟩
      have h1 := (get_isSome_iff (allocated m numGrads) 1 gradIndex).mpr ⟨Or.inr rfl, hg, hlt⟩
      obtain ⟨p, hp⟩ := Option.isSome_iff_exists.mp h0
      obtain ⟨a, ha⟩ := Option.isSome_iff_exists.mp h1
      obtain ⟨M2, hM2, -⟩ := addTo_addTo (allocated m numGrads) gradIndex
        (dGammaSensitivityAt m d p a * ((signAt m m.Tstrain : Int) : K))
        (dGammaSensitivityAt m d p a) p a hg hlt hp ha
      refine ⟨M2, ?_⟩
      rw [commitSensitivity_plastic m d gradIndex numGrads p a hlt hp ha hf]
      cases h3 : (allocated m numGrads).addTo 0 gradIndex
          (dGammaSensitivityAt m d p a * ((signAt m m.Tstrain : Int) : K)) with
      | none => rw [h3] at hM2; simp at hM2
      | some M1 =>
        rw [h3] at hM2
        simp only [Option.some_bind] at hM2 ⊢
        rw [hM2]
        rfl

/-- The sample state at strain `1/20` is on the elastic step. -/
theorem sampleState_elastic (parameterID : Int) (SHVs : Option (Matrix K)) :
    elasticAt (sampleState K (1 / 20) parameterID SHVs)
      (sampleState K (1 / 20) parameterID SHVs).Tstrain := by
  have he : DBL_EPSILON K * 10 ≤ 1 / 2 := by
    unfold DBL_EPSILON
    norm_num
  have hy : yieldAt (sampleState K (1 / 20) parameterID SHVs) (1 / 20) = -(1 / 2) := by
    simp only [yieldAt, xsiAt, sampleState]
    have habs : |(10 : K) * (1 / 20 - 0) - 3 * 0| = 1 / 2 := by
      rw [abs_of_nonneg (by norm_num)]
      norm_num
    rw [habs]
    norm_num
  show yieldAt (sampleState K (1 / 20) parameterID SHVs) (1 / 20) ≤ -DBL_EPSILON K * 10
  rw [hy]
  linarith

/-- C15, as stated, fails: on the sample state at strain `1/20` (elastic step),
which has a matrix of one column, `commitSensitivity(1, -1, 1)` passes the
test `gradIndex >= SHVs->noCols()` and reads `(*SHVs)(0, -1)`, outside the
matrix, before it tests the yield criterion: the call has no defined result. -/
theorem commitSensitivity_elastic_negative_index :
    elasticAt (sampleState ℚ (1 / 20) 0 (some ⟨[(5, 7)]⟩))
      (sampleState ℚ (1 / 20) 0 (some ⟨[(5, 7)]⟩)).Tstrain ∧
    commitSensitivity (sampleState ℚ (1 / 20) 0 (some ⟨[(5, 7)]⟩)) 1 (-1) 1 = none := by
  refine ⟨sampleState_elastic 0 _, ?_⟩
  rw [commitSensitivity_eq]
  simp [allocated, sampleState, Matrix.get, Matrix.noCols]

/-- C15, amended: for `gradIndex ≥ 0` the call `commitSensitivity` returns 0
and changes no member but the sensitivity matrix; if moreover `gradIndex` is
not below the number of columns, or the yield criterion selects the elastic
step, the matrix after the call is the matrix before it, or, when none was
allocated, the zero matrix the call allocates (with `numGrads` columns for
`numGrads ≥ 0`). -/
theorem commitSensitivity_no_op (m : HardeningMaterial K) (d : K)
    (gradIndex numGrads : Int) (hg : 0 ≤ gradIndex) :
    (∃ M2 : Matrix K,
      commitSensitivity m d gradIndex numGrads = some ({ m with SHVs := some M2 }, 0)) ∧
    ((gradIndex ≥ (allocated m numGrads).noCols ∨ yieldAt m m.Tstrain ≤ -DBL_EPSILON K * m.E) →
      commitSensitivity m d gradIndex numGrads
        = some ({ m with SHVs := some (allocated m numGrads) }, 0)) ∧
    (∀ M : Matrix K, m.SHVs = some M → allocated m numGrads = M) ∧
    (m.SHVs = none →
      allocated m numGrads = Matrix.new numGrads ∧
      (∀ q ∈ (allocated m numGrads).cols, q = ((0 : K), (0 : K))) ∧
      (0 ≤ numGrads → (allocated m numGrads).noCols = numGrads)) := by
  refine ⟨commitSensitivity_succeeds m d gradIndex numGrads hg, ?_, ?_, ?_⟩
  · intro h
    by_cases hr : gradIndex ≥ (allocated m numGrads).noCols
    · exact commitSensitivity_out_of_range m d gradIndex numGrads hr
    · rcases h with h | h
      · exact absurd h hr
      · exact commitSensitivity_elastic m d gradIndex numGrads hg (not_le.mp hr) h
  · intro M hM
    unfold allocated
    rw [hM]
  · intro hS
    have hnew : allocated m numGrads = Matrix.new numGrads := by
      unfold allocated
      rw [hS]
    refine ⟨hnew, ?_, ?_⟩
    · intro q hq
      rw [hnew] at hq
      simp only [Matrix.new, List.mem_replicate] at hq
      exact hq.2
    · intro hn
      rw [hnew]
      simp only [Matrix.new, Matrix.noCols, List.length_replicate]
      omega

/-- Witness of the amended C15: on the elastic sample state without a matrix,
`commitSensitivity(1, 0, 2)` allocates the zero matrix with two columns and
returns 0. -/
theorem commitSensitivity_no_op_witness :
    (0 : Int) ≤ 0 ∧
    yieldAt (sampleState ℚ (1 / 20) 0 none) (sampleState ℚ (1 / 20) 0 none).Tstrain
      ≤ -DBL_EPSILON ℚ * (sampleState ℚ (1 / 20) 0 none).E ∧
    commitSensitivity (sampleState ℚ (1 / 20) 0 none) 1 0 2
      = some (sampleState ℚ (1 / 20) 0 (some ⟨[(0, 0), (0, 0)]⟩), 0) :=
  ⟨le_refl 0, sampleState_elastic 0 none,
    (commitSensitivity_no_op (sampleState ℚ (1 / 20) 0 none) 1 0 2 (le_refl 0)).2.1
      (Or.inr (sampleState_elastic 0 none))⟩

/-- C20: for `gradIndex ≥ 0` and `numGrads ≥ 0` every read and write of the
sensitivity matrix in `getStressSensitivity(gradIndex)` and in
`commitSensitivity(·, gradIndex, numGrads)` is inside the matrix: both calls
have a result, where a read or write has a result exactly for a row 0 or 1 and
a column `c` with `0 ≤ c <` number of columns. -/
theorem sensitivity_matrix_access_in_bounds (m : HardeningMaterial K) (d : K)
    (gradIndex numGrads : Int) (hg : 0 ≤ gradIndex) (_hn : 0 ≤ numGrads) :
    (getStressSensitivity m gradIndex).isSome = true ∧
    (commitSensitivity m d gradIndex numGrads).isSome = true ∧
    (∀ (M : Matrix K) (row : Nat) (col : Int),
      (M.get row col).isSome = true ↔ (row = 0 ∨ row = 1) ∧ 0 ≤ col ∧ col < M.noCols) ∧
    (∀ (M : Matrix K) (row : Nat) (col : Int) (v : K),
      (M.addTo row col v).isSome = true ↔ (row = 0 ∨ row = 1) ∧ 0 ≤ col ∧ col < M.noCols) := by
  refine ⟨?_, ?_, get_isSome_iff, addTo_isSome_iff⟩
  · rw [getStressSensitivity_eq]
    obtain ⟨pa, hpa⟩ := Option.isSome_iff_exists.mp (historySens_isSome m gradIndex hg)
    rw [hpa]
    rfl
  · obtain ⟨M2, hM2⟩ := commitSensitivity_succeeds m d gradIndex numGrads hg
    rw [hM2]
    rfl

/-- Witness of C20: the plastic sample state with a matrix of two columns,
`gradIndex = 1`, `numGrads = 2`. -/
theorem sensitivity_matrix_access_in_bounds_witness :
    (0 : Int) ≤ 1 ∧ (0 : Int) ≤ 2 ∧
    (getStressSensitivity (sampleState ℚ 1 2 (some ⟨[(5, 7), (1, 1)]⟩)) 1).isSome = true ∧
    (commitSensitivity (sampleState ℚ 1 2 (some ⟨[(5, 7), (1, 1)]⟩)) 1 1 2).isSome = true :=
  have h := sensitivity_matrix_access_in_bounds
    (sampleState ℚ 1 2 (some ⟨[(5, 7), (1, 1)]⟩)) 1 1 2 (by decide) (by decide)
  ⟨by decide, by decide, h.1, h.2.1⟩

/-! ## The tangent as the derivative of the stress -/

/-- The relative trial stress is an affine function of the strain, with slope
`E`. -/
theorem hasDerivAt_xsiAt (m : HardeningMaterial ℝ) (s0 : ℝ) :
    HasDerivAt (fun s : ℝ => xsiAt m s) m.E s0 := by
  unfold xsiAt
  have h := (((hasDerivAt_id s0).sub_const m.CplasticStrain).const_mul m.E).sub_const
    (m.Hkin * m.CplasticStrain)
  simpa using h

/-- The yield criterion is continuous in the strain. -/
theorem continuous_yieldAt (m : HardeningMaterial ℝ) :
    Continuous (fun s : ℝ => yieldAt m s) := by
  have hx : Continuous (fun s : ℝ => xsiAt m s) :=
    continuous_iff_continuousAt.mpr (fun s0 => (hasDerivAt_xsiAt m s0).continuousAt)
  unfold yieldAt
  exact (continuous_abs.comp hx).sub continuous_const

/-- Strictly inside the elastic range the stored stress has slope `E`. -/
theorem hasDerivAt_stress_elastic (m : HardeningMaterial ℝ) (prev : ℝ → ℝ) (s0 : ℝ)
    (hprev : Filter.Eventually (fun s => DBL_EPSILON ℝ ≤ |s - prev s|) (nhds s0))
    (hlt : yieldAt m s0 < -DBL_EPSILON ℝ * m.E) :
    HasDerivAt (fun s : ℝ => (setTrialStrain { m with Tstrain := prev s } s).1.Tstress)
      m.E s0 := by
  have hev : Filter.Eventually (fun s => yieldAt m s < -DBL_EPSILON ℝ * m.E) (nhds s0) :=
    Filter.Tendsto.eventually (continuous_yieldAt m).continuousAt (gt_mem_nhds hlt)
  have heq : Filter.EventuallyEq (nhds s0)
      (fun s : ℝ => (setTrialStrain { m with Tstrain := prev s } s).1.Tstress)
      (fun s : ℝ => m.E * (s - m.CplasticStrain)) := by
    filter_upwards [hprev, hev] with s hs1 hs2
    have h0 : ¬ |({ m with Tstrain := prev s } : HardeningMaterial ℝ).Tstrain - s|
        < DBL_EPSILON ℝ := (not_shortcut_iff _ s).mpr hs1
    have hf : elasticAt ({ m with Tstrain := prev s } : HardeningMaterial ℝ) s := le_of_lt hs2
    rw [setTrialStrain_elastic _ s h0 hf]
  have hd : HasDerivAt (fun s : ℝ => m.E * (s - m.CplasticStrain)) m.E s0 := by
    have h := ((hasDerivAt_id s0).sub_const m.CplasticStrain).const_mul m.E
    simpa using h
  exact hd.congr_of_eventuallyEq heq

/-- The return-mapped stress for a fixed sign `sg` (`sg·sg = 1`) has the slope
`E·(Hkin+Hiso)/(E+Hkin+Hiso)` in the strain. -/
theorem hasDerivAt_return_mapped (m : HardeningMaterial ℝ) (sg s0 : ℝ) (hsg : sg * sg = 1)
    (hD : m.E + m.Hiso + m.Hkin ≠ 0) :
    HasDerivAt (fun s : ℝ => m.E * (s - m.CplasticStrain)
        - (sg * xsiAt m s - (m.sigmaY + m.Hiso * m.Chardening)) / (m.E + m.Hiso + m.Hkin)
          * m.E * sg)
      (m.E * (m.Hkin + m.Hiso) / (m.E + m.Hkin + m.Hiso)) s0 := by
  have hD1 : m.E + m.Hkin + m.Hiso ≠ 0 := by
    intro h
    apply hD
    rw [← h]
    ring
  have hT : HasDerivAt (fun s : ℝ => m.E * (s - m.CplasticStrain)) m.E s0 := by
    have h := ((hasDerivAt_id s0).sub_const m.CplasticStrain).const_mul m.E
    simpa using h
  have h := hT.sub ((((((hasDerivAt_xsiAt m s0).const_mul sg).sub_const
    (m.sigmaY + m.Hiso * m.Chardening)).div_const (m.E + m.Hiso + m.Hkin)).mul_const
    m.E).mul_const sg)
  convert h using 1
  have hsg2 : sg * m.E / (m.E + m.Hiso + m.Hkin) * m.E * sg
      = m.E * m.E / (m.E + m.Hiso + m.Hkin) := by
    have : sg * m.E / (m.E + m.Hiso + m.Hkin) * m.E * sg
        = (sg * sg) * (m.E * m.E / (m.E + m.Hiso + m.Hkin)) := by ring
    rw [this, hsg, one_mul]
  rw [hsg2]
  field_simp
  ring

/-- Strictly inside the plastic range, away from `xsi = 0`, the stored stress
has the slope `E·(Hkin+Hiso)/(E+Hkin+Hiso)`. -/
theorem hasDerivAt_stress_plastic (m : HardeningMaterial ℝ) (prev : ℝ → ℝ) (s0 : ℝ)
    (hD : m.E + m.Hiso + m.Hkin ≠ 0)
    (hprev : Filter.Eventually (fun s => DBL_EPSILON ℝ ≤ |s - prev s|) (nhds s0))
    (hgt : -DBL_EPSILON ℝ * m.E < yieldAt m s0) (hx : xsiAt m s0 ≠ 0) :
    HasDerivAt (fun s : ℝ => (setTrialStrain { m with Tstrain := prev s } s).1.Tstress)
      (m.E * (m.Hkin + m.Hiso) / (m.E + m.Hkin + m.Hiso)) s0 := by
  have hev : Filter.Eventually (fun s => -DBL_EPSILON ℝ * m.E < yieldAt m s) (nhds s0) :=
    Filter.Tendsto.eventually (continuous_yieldAt m).continuousAt (lt_mem_nhds hgt)
  have hxc : ContinuousAt (fun s : ℝ => xsiAt m s) s0 := (hasDerivAt_xsiAt m s0).continuousAt
  have hstep : ∀ s : ℝ, DBL_EPSILON ℝ ≤ |s - prev s| → -DBL_EPSILON ℝ * m.E < yieldAt m s →
      (setTrialStrain { m with Tstrain := prev s } s).1.Tstress
        = m.E * (s - m.CplasticStrain)
          - yieldAt m s / (m.E + m.Hiso + m.Hkin) * m.E * ((signAt m s : Int) : ℝ) := by
    intro s hs1 hs2
    have h0 : ¬ |({ m with Tstrain := prev s } : HardeningMaterial ℝ).Tstrain - s|
        < DBL_EPSILON ℝ := (not_shortcut_iff _ s).mpr hs1
    have hf : ¬ elasticAt ({ m with Tstrain := prev s } : HardeningMaterial ℝ) s :=
      not_le.mpr hs2
    rw [setTrialStrain_plastic _ s h0 hf]
    rfl
  rcases lt_or_gt_of_ne hx with hneg | hpos
  · have hevx : Filter.Eventually (fun s => xsiAt m s < 0) (nhds s0) :=
      Filter.Tendsto.eventually hxc (gt_mem_nhds hneg)
    have heq : Filter.EventuallyEq (nhds s0)
        (fun s : ℝ => (setTrialStrain { m with Tstrain := prev s } s).1.Tstress)
        (fun s : ℝ => m.E * (s - m.CplasticStrain)
          - ((-1) * xsiAt m s - (m.sigmaY + m.Hiso * m.Chardening)) / (m.E + m.Hiso + m.Hkin)
            * m.E * (-1)) := by
      filter_upwards [hprev, hev, hevx] with s hs1 hs2 hs3
      rw [hstep s hs1 hs2, signAt_cast, if_pos hs3]
      unfold yieldAt
      rw [abs_of_neg hs3]
      ring
    exact (hasDerivAt_return_mapped m (-1) s0 (by norm_num) hD).congr_of_eventuallyEq heq
  · have hevx : Filter.Eventually (fun s => 0 < xsiAt m s) (nhds s0) :=
      Filter.Tendsto.eventually hxc (lt_mem_nhds hpos)
    have heq : Filter.EventuallyEq (nhds s0)
        (fun s : ℝ => (setTrialStrain { m with Tstrain := prev s } s).1.Tstress)
        (fun s : ℝ => m.E * (s - m.CplasticStrain)
          - (1 * xsiAt m s - (m.sigmaY + m.Hiso * m.Chardening)) / (m.E + m.Hiso + m.Hkin)
            * m.E * 1) := by
      filter_upwards [hprev, hev, hevx] with s hs1 hs2 hs3
      rw [hstep s hs1 hs2, signAt_cast, if_neg (not_lt.mpr (le_of_lt hs3))]
      unfold yieldAt
      rw [abs_of_pos hs3]
      ring
    exact (hasDerivAt_return_mapped m 1 s0 (by norm_num) hD).congr_of_eventuallyEq heq

/-- C19: the tangent is consistent with the stress update.  Fix parameters
such that `E+Hiso+Hkin ≠ 0` and a committed history; let the previous trial
strain `prev s` stay at least `DBL_EPSILON` away from the new strain `s` near `s0`
(so that no call returns at its first line).  At a strain `s0` strictly inside
a step (`f < −DBL_EPSILON·E`, or `f > −DBL_EPSILON·E` with `xsi ≠ 0`) the
stress stored by `setTrialStrain(s)`, as a function of `s`, has a derivative,
and it is the tangent the call at `s0` stores: `E` on the elastic step and
`E·(Hkin+Hiso)/(E+Hkin+Hiso)` on the plastic step. -/
theorem tangent_is_derivative_of_stress (m : HardeningMaterial ℝ) (prev : ℝ → ℝ) (s0 : ℝ)
    (hD : m.E + m.Hiso + m.Hkin ≠ 0)
    (hprev : Filter.Eventually (fun s => DBL_EPSILON ℝ ≤ |s - prev s|) (nhds s0))
    (hin : yieldAt m s0 < -DBL_EPSILON ℝ * m.E ∨
      (-DBL_EPSILON ℝ * m.E < yieldAt m s0 ∧ xsiAt m s0 ≠ 0)) :
    HasDerivAt (fun s : ℝ => (setTrialStrain { m with Tstrain := prev s } s).1.Tstress)
      (setTrialStrain { m with Tstrain := prev s0 } s0).1.Ttangent s0 ∧
    (yieldAt m s0 < -DBL_EPSILON ℝ * m.E →
      (setTrialStrain { m with Tstrain := prev s0 } s0).1.Ttangent = m.E) ∧
    (-DBL_EPSILON ℝ * m.E < yieldAt m s0 →
      (setTrialStrain { m with Tstrain := prev s0 } s0).1.Ttangent
        = m.E * (m.Hkin + m.Hiso) / (m.E + m.Hkin + m.Hiso)) := by
  have h0 : ¬ |({ m with Tstrain := prev s0 } : HardeningMaterial ℝ).Tstrain - s0|
      < DBL_EPSILON ℝ := (not_shortcut_iff _ s0).mpr hprev.self_of_nhds
  have hel : yieldAt m s0 < -DBL_EPSILON ℝ * m.E →
      (setTrialStrain { m with Tstrain := prev s0 } s0).1.Ttangent = m.E := by
    intro hlt
    have hf : elasticAt ({ m with Tstrain := prev s0 } : HardeningMaterial ℝ) s0 := le_of_lt hlt
    rw [setTrialStrain_elastic _ s0 h0 hf]
  have hpl : -DBL_EPSILON ℝ * m.E < yieldAt m s0 →
      (setTrialStrain { m with Tstrain := prev s0 } s0).1.Ttangent
        = m.E * (m.Hkin + m.Hiso) / (m.E + m.Hkin + m.Hiso) := by
    intro hgt
    have hf : ¬ elasticAt ({ m with Tstrain := prev s0 } : HardeningMaterial ℝ) s0 :=
      not_le.mpr hgt
    rw [setTrialStrain_plastic _ s0 h0 hf]
  refine ⟨?_, hel, hpl⟩
  rcases hin with hlt | ⟨hgt, hx⟩
  · rw [hel hlt]
    exact hasDerivAt_stress_elastic m prev s0 hprev hlt
  · rw [hpl hgt]
    exact hasDerivAt_stress_plastic m prev s0 hD hprev hgt hx

/-- Witness of C19: the sample parameters (`E = 10`, `sigmaY = 1`, `Hiso = 2`,
`Hkin = 3`, no history), previous trial strain `s + 1`, at the strain 1 (plastic
step, `xsi = 10`): the slope of the stored stress is `10·5/15`. -/
theorem tangent_is_derivative_of_stress_witness :
    (sampleState ℝ 0 0 none).E + (sampleState ℝ 0 0 none).Hiso
      + (sampleState ℝ 0 0 none).Hkin ≠ 0 ∧
    (-DBL_EPSILON ℝ * (sampleState ℝ 0 0 none).E < yieldAt (sampleState ℝ 0 0 none) 1 ∧
      xsiAt (sampleState ℝ 0 0 none) 1 ≠ 0) ∧
    HasDerivAt (fun s : ℝ =>
        (setTrialStrain { sampleState ℝ 0 0 none with Tstrain := s + 1 } s).1.Tstress)
      (10 * (3 + 2) / (10 + 3 + 2)) 1 := by
  have hD : (sampleState ℝ 0 0 none).E + (sampleState ℝ 0 0 none).Hiso
      + (sampleState ℝ 0 0 none).Hkin ≠ 0 := by
    norm_num [sampleState]
  have hy : yieldAt (sampleState ℝ 0 0 none) 1 = 9 := by
    simp only [yieldAt, xsiAt, sampleState]
    norm_num
  have hgt : -DBL_EPSILON ℝ * (sampleState ℝ 0 0 none).E < yieldAt (sampleState ℝ 0 0 none) 1 := by
    rw [hy]
    have he : (0 : ℝ) < DBL_EPSILON ℝ := DBL_EPSILON_pos
    have hE : (sampleState ℝ 0 0 none).E = 10 := rfl
    rw [hE]
    linarith
  have hx : xsiAt (sampleState ℝ 0 0 none) 1 ≠ 0 := by
    norm_num [xsiAt, sampleState]
  have hprev : Filter.Eventually (fun s : ℝ => DBL_EPSILON ℝ ≤ |s - (s + 1)|) (nhds 1) := by
    apply Filter.Eventually.of_forall
    intro s
    have h1 : s - (s + 1) = -1 := by ring
    rw [h1]
    norm_num [DBL_EPSILON]
  have h := tangent_is_derivative_of_stress (sampleState ℝ 0 0 none) (fun s => s + 1) 1
    hD hprev (Or.inr ⟨hgt, hx⟩)
  refine ⟨hD, ⟨hgt, hx⟩, ?_⟩
  have h1 := h.1
  rw [h.2.2 hgt] at h1
  exact h1

/-! ## Sensitivity of the stress -/

/-- Chain rule for the forward stress formula of the plastic step: when the
parameters and the committed history are functions of `θ` with derivatives
`E'`, `Y'`, `Hi'`, `Hk'`, `p`, `a` at `θ0`, the relative stress is not 0 and
`sg` is its sign, the formula has the derivative that the plastic step of
`getStressSensitivity` computes. -/
theorem hasDerivAt_returnStress_chain (E Y Hi Hk Cp Ch : ℝ → ℝ)
    (E' Y' Hi' Hk' p a θ0 s sg : ℝ)
    (hE : HasDerivAt E E' θ0) (hY : HasDerivAt Y Y' θ0) (hHi : HasDerivAt Hi Hi' θ0)
    (hHk : HasDerivAt Hk Hk' θ0) (hCp : HasDerivAt Cp p θ0) (hCh : HasDerivAt Ch a θ0)
    (hD : E θ0 + Hi θ0 + Hk θ0 ≠ 0)
    (hx : E θ0 * (s - Cp θ0) - Hk θ0 * Cp θ0 ≠ 0)
    (hsg : sg = if E θ0 * (s - Cp θ0) - Hk θ0 * Cp θ0 < 0 then -1 else 1) :
    HasDerivAt
      (fun θ : ℝ => E θ * (s - Cp θ)
        - (|E θ * (s - Cp θ) - Hk θ * Cp θ| - (Y θ + Hi θ * Ch θ)) / (E θ + Hi θ + Hk θ)
          * E θ * sg)
      ((E' * (s - Cp θ0) - E θ0 * p)
        - ((((E' * (s - Cp θ0) - E θ0 * p) - (Hk' * Cp θ0 + Hk θ0 * p)) * sg
              - Y' - Hi' * Ch θ0 - Hi θ0 * a) * (E θ0 + Hk θ0 + Hi θ0)
            - (|E θ0 * (s - Cp θ0) - Hk θ0 * Cp θ0| - (Y θ0 + Hi θ0 * Ch θ0))
              * (E' + Hk' + Hi'))
          / ((E θ0 + Hk θ0 + Hi θ0) * (E θ0 + Hk θ0 + Hi θ0)) * E θ0 * sg
        - (|E θ0 * (s - Cp θ0) - Hk θ0 * Cp θ0| - (Y θ0 + Hi θ0 * Ch θ0))
          / (E θ0 + Hi θ0 + Hk θ0) * E' * sg) θ0 := by
  have hD1 : E θ0 + Hk θ0 + Hi θ0 ≠ 0 := by
    intro h
    apply hD
    rw [← h]
    ring
  have hT : HasDerivAt (fun θ : ℝ => E θ * (s - Cp θ))
      (E' * (s - Cp θ0) + E θ0 * (0 - p)) θ0 := hE.mul ((hasDerivAt_const θ0 s).sub hCp)
  have hxsi : HasDerivAt (fun θ : ℝ => E θ * (s - Cp θ) - Hk θ * Cp θ)
      (E' * (s - Cp θ0) + E θ0 * (0 - p) - (Hk' * Cp θ0 + Hk θ0 * p)) θ0 :=
    hT.sub (hHk.mul hCp)
  have habs : HasDerivAt (fun θ : ℝ => |E θ * (s - Cp θ) - Hk θ * Cp θ|)
      (sg * (E' * (s - Cp θ0) + E θ0 * (0 - p) - (Hk' * Cp θ0 + Hk θ0 * p))) θ0 := by
    rcases lt_or_gt_of_ne hx with hneg | hpos
    · rw [hsg, if_pos hneg]
      exact HasDerivAt.comp θ0 (hasDerivAt_abs_neg hneg) hxsi
    · rw [hsg, if_neg (not_lt.mpr (le_of_lt hpos))]
      exact HasDerivAt.comp θ0 (hasDerivAt_abs_pos hpos) hxsi
  have hf := habs.sub (hY.add (hHi.mul hCh))
  have hDf := (hE.add hHi).add hHk
  have hdG := hf.div hDf hD
  have hres := hT.sub ((hdG.mul hE).mul_const sg)
  convert hres using 1
  field_simp
  ring

/-- The perturbed instance at the current value of the selected member is the
unperturbed one. -/
theorem perturb_self (m : HardeningMaterial K) (parameterID : Int) (p a : K) :
    perturb m parameterID p a (paramValue m parameterID) = m := by
  unfold perturb updateParameter paramValue
  cases m
  split_ifs <;> simp

/-- The derivatives of the four parameters of the perturbed instance with
respect to the member that `parameterID` selects are the seeds that
`getStressSensitivity` and `commitSensitivity` use. -/
theorem hasDerivAt_perturb_parameters (m : HardeningMaterial ℝ) (p a : ℝ) :
    HasDerivAt (fun θ : ℝ => (perturb m m.parameterID p a θ).E)
      (paramSens m.parameterID : ParamSens ℝ).ESensitivity (paramValue m m.parameterID) ∧
    HasDerivAt (fun θ : ℝ => (perturb m m.parameterID p a θ).sigmaY)
      (paramSens m.parameterID : ParamSens ℝ).SigmaYSensitivity (paramValue m m.parameterID) ∧
    HasDerivAt (fun θ : ℝ => (perturb m m.parameterID p a θ).Hiso)
      (paramSens m.parameterID : ParamSens ℝ).HisoSensitivity (paramValue m m.parameterID) ∧
    HasDerivAt (fun θ : ℝ => (perturb m m.parameterID p a θ).Hkin)
      (paramSens m.parameterID : ParamSens ℝ).HkinSensitivity (paramValue m m.parameterID) := by
  by_cases h1 : m.parameterID = 1
  · simp only [perturb, updateParameter, paramSens, h1]
    norm_num
    exact ⟨hasDerivAt_const _ _, hasDerivAt_id _, hasDerivAt_const _ _, hasDerivAt_const _ _⟩
  · by_cases h2 : m.parameterID = 2
    · simp only [perturb, updateParameter, paramSens, h2]
      norm_num
      exact ⟨hasDerivAt_id _, hasDerivAt_const _ _, hasDerivAt_const _ _, hasDerivAt_const _ _⟩
    · by_cases h3 : m.parameterID = 3
      · simp only [perturb, updateParameter, paramSens, h3]
        norm_num
        exact ⟨hasDerivAt_const _ _, hasDerivAt_const _ _, hasDerivAt_const _ _,
          hasDerivAt_id _⟩
      · by_cases h4 : m.parameterID = 4
        · simp only [perturb, updateParameter, paramSens, h4]
          norm_num
          exact ⟨hasDerivAt_const _ _, hasDerivAt_const _ _, hasDerivAt_id _,
            hasDerivAt_const _ _⟩
        · have hfun : ∀ θ : ℝ, (updateParameter m m.parameterID θ).1 = m :=
            fun θ => updateParameter_other m m.parameterID θ h1 h2 h3 h4
          simp only [perturb, hfun, paramSens, if_neg h1, if_neg h2, if_neg h3, if_neg h4]
          exact ⟨hasDerivAt_const _ _, hasDerivAt_const _ _, hasDerivAt_const _ _,
            hasDerivAt_const _ _⟩

/-- The committed history of the perturbed instance moves at the rates `p`
and `a`. -/
theorem hasDerivAt_perturb_history (m : HardeningMaterial ℝ) (p a : ℝ) :
    HasDerivAt (fun θ : ℝ => (perturb m m.parameterID p a θ).CplasticStrain) p
      (paramValue m m.parameterID) ∧
    HasDerivAt (fun θ : ℝ => (perturb m m.parameterID p a θ).Chardening) a
      (paramValue m m.parameterID) := by
  constructor
  · have h := (((hasDerivAt_id (paramValue m m.parameterID)).sub_const
      (paramValue m m.parameterID)).const_mul p).const_add m.CplasticStrain
    simpa [perturb] using h
  · have h := (((hasDerivAt_id (paramValue m m.parameterID)).sub_const
      (paramValue m m.parameterID)).const_mul a).const_add m.Chardening
    simpa [perturb] using h

/-- The history sensitivities that `getStressSensitivity` picks up: 0 without a
matrix or for a `gradIndex` at or beyond its columns, and the stored entries
of column `gradIndex` otherwise. -/
theorem historySens_cases (m : HardeningMaterial K) (gradIndex : Int) (p a : K)
    (hpa : historySens m gradIndex = some (p, a)) :
    (m.SHVs = none → p = 0 ∧ a = 0) ∧
    (∀ M : Matrix K, m.SHVs = some M → M.noCols ≤ gradIndex → p = 0 ∧ a = 0) ∧
    (∀ M : Matrix K, m.SHVs = some M → gradIndex < M.noCols →
      M.get 0 gradIndex = some p ∧ M.get 1 gradIndex = some a) := by
  unfold historySens at hpa
  refine ⟨?_, ?_, ?_⟩
  · intro hS
    rw [hS] at hpa
    simp only [pure, Option.some.injEq, Prod.mk.injEq] at hpa
    exact ⟨hpa.1.symm, hpa.2.symm⟩
  · intro M hS hge
    rw [hS] at hpa
    simp only [bind, pure, if_neg (not_lt.mpr hge), Option.some.injEq, Prod.mk.injEq] at hpa
    exact ⟨hpa.1.symm, hpa.2.symm⟩
  · intro M hS hlt
    rw [hS] at hpa
    simp only [bind, pure, if_pos hlt, Option.bind_eq_some, Option.some.injEq,
      Prod.mk.injEq] at hpa
    obtain ⟨p1, hp1, a1, ha1, hp, ha⟩ := hpa
    rw [hp1, ha1, hp, ha]
    exact ⟨rfl, rfl⟩

/-- C12: `getStressSensitivity` is the derivative of the forward stress
formula.  Let `E+Hiso+Hkin ≠ 0`, let one of `sigmaY`, `E`, `Hkin`, `Hiso` be
active (`parameterID = 1, 2, 3, 4`) and let `p`, `a` be the history
sensitivities the call picks up for `gradIndex` (0 without a matrix or beyond
its columns, else the stored entries).  The call changes no member.  On the
elastic step it returns `E'·(Tstrain − CplasticStrain) − E·p` with `E' = 1` if
`E` is active and 0 otherwise.  On the plastic step with `xsi ≠ 0` it returns
the derivative, with respect to the active parameter, of
`stress_e − (f/(E+Hiso+Hkin))·E·sign`, where the committed plastic strain and
hardening vary with the parameter at the rates `p` and `a` and `sign` keeps
its current value. -/
theorem getStressSensitivity_is_derivative (m : HardeningMaterial ℝ) (gradIndex : Int)
    (p a : ℝ) (hD : m.E + m.Hiso + m.Hkin ≠ 0)
    (_hid : m.parameterID = 1 ∨ m.parameterID = 2 ∨ m.parameterID = 3 ∨ m.parameterID = 4)
    (hpa : historySens m gradIndex = some (p, a)) :
    ((m.SHVs = none → p = 0 ∧ a = 0) ∧
     (∀ M : Matrix ℝ, m.SHVs = some M → M.noCols ≤ gradIndex → p = 0 ∧ a = 0) ∧
     (∀ M : Matrix ℝ, m.SHVs = some M → gradIndex < M.noCols →
       M.get 0 gradIndex = some p ∧ M.get 1 gradIndex = some a)) ∧
    (getStressSensitivity m gradIndex).map Prod.fst = some m ∧
    (yieldAt m m.Tstrain ≤ -DBL_EPSILON ℝ * m.E →
      (getStressSensitivity m gradIndex).map Prod.snd
        = some ((if m.parameterID = 2 then 1 else 0) * (m.Tstrain - m.CplasticStrain)
            - m.E * p)) ∧
    (¬ yieldAt m m.Tstrain ≤ -DBL_EPSILON ℝ * m.E → xsiAt m m.Tstrain ≠ 0 →
      ∃ v : ℝ, (getStressSensitivity m gradIndex).map Prod.snd = some v ∧
        HasDerivAt
          (fun θ : ℝ => returnStress (perturb m m.parameterID p a θ) m.Tstrain
            ((signAt m m.Tstrain : Int) : ℝ))
          v (paramValue m m.parameterID)) := by
  have hget : getStressSensitivity m gradIndex = some (m, stressSensitivityAt m p a) := by
    rw [getStressSensitivity_eq, hpa]
    rfl
  have hseedE : (paramSens m.parameterID : ParamSens ℝ).ESensitivity
      = if m.parameterID = 2 then 1 else 0 := by
    unfold paramSens
    split_ifs <;> first | rfl | omega
  refine ⟨historySens_cases m gradIndex p a hpa, ?_, ?_, ?_⟩
  · rw [hget]
    rfl
  · intro hf
    rw [hget]
    simp only [Option.map_some', Option.some.injEq]
    unfold stressSensitivityAt
    dsimp only
    rw [if_pos hf, hseedE]
  · intro hf hx
    refine ⟨stressSensitivityAt m p a, by rw [hget]; rfl, ?_⟩
    have hself := perturb_self m m.parameterID p a
    obtain ⟨hE, hY, hHi, hHk⟩ := hasDerivAt_perturb_parameters m p a
    obtain ⟨hCp, hCh⟩ := hasDerivAt_perturb_history m p a
    have hD1 : (perturb m m.parameterID p a (paramValue m m.parameterID)).E
        + (perturb m m.parameterID p a (paramValue m m.parameterID)).Hiso
        + (perturb m m.parameterID p a (paramValue m m.parameterID)).Hkin ≠ 0 := by
      rw [hself]
      exact hD
    have hx1 : (perturb m m.parameterID p a (paramValue m m.parameterID)).E
          * (m.Tstrain - (perturb m m.parameterID p a (paramValue m m.parameterID)).CplasticStrain)
        - (perturb m m.parameterID p a (paramValue m m.parameterID)).Hkin
          * (perturb m m.parameterID p a (paramValue m m.parameterID)).CplasticStrain ≠ 0 := by
      rw [hself]
      exact hx
    have hsg : ((signAt m m.Tstrain : Int) : ℝ)
        = if (perturb m m.parameterID p a (paramValue m m.parameterID)).E
              * (m.Tstrain
                - (perturb m m.parameterID p a (paramValue m m.parameterID)).CplasticStrain)
            - (perturb m m.parameterID p a (paramValue m m.parameterID)).Hkin
              * (perturb m m.parameterID p a (paramValue m m.parameterID)).CplasticStrain < 0
          then -1 else 1 := by
      rw [hself]
      exact signAt_cast m m.Tstrain
    have hchain := hasDerivAt_returnStress_chain
      (fun θ : ℝ => (perturb m m.parameterID p a θ).E)
      (fun θ : ℝ => (perturb m m.parameterID p a θ).sigmaY)
      (fun θ : ℝ => (perturb m m.parameterID p a θ).Hiso)
      (fun θ : ℝ => (perturb m m.parameterID p a θ).Hkin)
      (fun θ : ℝ => (perturb m m.parameterID p a θ).CplasticStrain)
      (fun θ : ℝ => (perturb m m.parameterID p a θ).Chardening)
      _ _ _ _ p a (paramValue m m.parameterID) m.Tstrain ((signAt m m.Tstrain : Int) : ℝ)
      hE hY hHi hHk hCp hCh hD1 hx1 hsg
    simp only [hself] at hchain
    convert hchain using 1
    have hf1 := hf
    unfold yieldAt xsiAt at hf1
    unfold stressSensitivityAt yieldAt xsiAt
    dsimp only
    rw [if_neg hf1]

/-- Witness of C12: the sample state at strain 1 (plastic step, `xsi = 10`),
`E` active, the matrix with the single column `(5, 7)` and `gradIndex = 0`:
the picked-up history sensitivities are 5 and 7 and the call changes no
member. -/
theorem getStressSensitivity_is_derivative_witness :
    (sampleState ℝ 1 2 (some ⟨[(5, 7)]⟩)).E + (sampleState ℝ 1 2 (some ⟨[(5, 7)]⟩)).Hiso
      + (sampleState ℝ 1 2 (some ⟨[(5, 7)]⟩)).Hkin ≠ 0 ∧
    historySens (sampleState ℝ 1 2 (some ⟨[(5, 7)]⟩)) 0 = some (5, 7) ∧
    ¬ yieldAt (sampleState ℝ 1 2 (some ⟨[(5, 7)]⟩)) (sampleState ℝ 1 2 (some ⟨[(5, 7)]⟩)).Tstrain
        ≤ -DBL_EPSILON ℝ * (sampleState ℝ 1 2 (some ⟨[(5, 7)]⟩)).E ∧
    xsiAt (sampleState ℝ 1 2 (some ⟨[(5, 7)]⟩)) (sampleState ℝ 1 2 (some ⟨[(5, 7)]⟩)).Tstrain ≠ 0 ∧
    (getStressSensitivity (sampleState ℝ 1 2 (some ⟨[(5, 7)]⟩)) 0).map Prod.fst
      = some (sampleState ℝ 1 2 (some ⟨[(5, 7)]⟩)) := by
  have hD : (sampleState ℝ 1 2 (some ⟨[(5, 7)]⟩)).E + (sampleState ℝ 1 2 (some ⟨[(5, 7)]⟩)).Hiso
      + (sampleState ℝ 1 2 (some ⟨[(5, 7)]⟩)).Hkin ≠ 0 := by
    norm_num [sampleState]
  have hpa : historySens (sampleState ℝ 1 2 (some ⟨[(5, 7)]⟩)) 0 = some (5, 7) := by
    simp [historySens, sampleState, Matrix.get, Matrix.noCols]
  have hx : xsiAt (sampleState ℝ 1 2 (some ⟨[(5, 7)]⟩))
      (sampleState ℝ 1 2 (some ⟨[(5, 7)]⟩)).Tstrain ≠ 0 := by
    norm_num [xsiAt, sampleState]
  exact ⟨hD, hpa, sampleState_plastic 2 _, hx,
    (getStressSensitivity_is_derivative (sampleState ℝ 1 2 (some ⟨[(5, 7)]⟩)) 0 5 7 hD
      (Or.inr (Or.inl rfl)) hpa).2.1⟩

/-! ## Committed history under every call -/

/-- C8, as stated, fails for `commitSensitivity` and `getStressSensitivity`: on
the sample state at strain 1 (plastic step), which has a matrix of one column,
the index `-1` passes the tests `gradIndex >= SHVs->noCols()` and
`gradIndex < SHVs->noCols()`, and both calls read `(*SHVs)(0, -1)`, outside
the matrix: neither call has a defined result or a defined state after it. -/
theorem sensitivity_calls_negative_index :
    commitSensitivity (sampleState ℚ 1 0 (some ⟨[(5, 7)]⟩)) 1 (-1) 1 = none ∧
    getStressSensitivity (sampleState ℚ 1 0 (some ⟨[(5, 7)]⟩)) (-1) = none := by
  constructor
  · rw [commitSensitivity_eq]
    simp [allocated, sampleState, Matrix.get, Matrix.noCols]
  · rw [getStressSensitivity_eq]
    simp [historySens, sampleState, Matrix.get, Matrix.noCols]

/-- C8, amended: `commitState` returns 0, copies the trial plastic strain and
hardening into the committed ones and changes nothing else; `setTrialStrain`,
`revertToLastCommit` (which changes nothing at all and returns 0),
`updateParameter`, `activateParameter`, the getters `getStress`, `getTangent`,
`getStrain`, `getTangentSensitivity`, `getInitialTangentSensitivity` and, for
`gradIndex ≥ 0`, `commitSensitivity` and `getStressSensitivity` have a result
and leave the committed plastic strain and hardening as they were (the two
last calls also for any other `gradIndex` whose accesses stay inside the
matrix). -/
theorem committed_history_changes_only_in_commitState (m : HardeningMaterial K) :
    commitState m
      = ({ m with CplasticStrain := m.TplasticStrain, Chardening := m.Thardening }, 0) ∧
    (∀ strain : K,
      (setTrialStrain m strain).1.CplasticStrain = m.CplasticStrain ∧
      (setTrialStrain m strain).1.Chardening = m.Chardening) ∧
    revertToLastCommit m = (m, 0) ∧
    (∀ (parameterID : Int) (v : K),
      (updateParameter m parameterID v).1.CplasticStrain = m.CplasticStrain ∧
      (updateParameter m parameterID v).1.Chardening = m.Chardening) ∧
    (∀ passedParameterID : Int,
      (activateParameter m passedParameterID).1.CplasticStrain = m.CplasticStrain ∧
      (activateParameter m passedParameterID).1.Chardening = m.Chardening) ∧
    (∀ (d : K) (gradIndex numGrads : Int), 0 ≤ gradIndex →
      ∃ r : HardeningMaterial K × Int, commitSensitivity m d gradIndex numGrads = some r ∧
        r.1.CplasticStrain = m.CplasticStrain ∧ r.1.Chardening = m.Chardening) ∧
    (∀ (d : K) (gradIndex numGrads : Int) (r : HardeningMaterial K × Int),
      commitSensitivity m d gradIndex numGrads = some r →
      r.1.CplasticStrain = m.CplasticStrain ∧ r.1.Chardening = m.Chardening) ∧
    ((getStress m).1 = m ∧ (getTangent m).1 = m ∧ (getStrain m).1 = m) ∧
    (∀ gradIndex : Int, 0 ≤ gradIndex →
      ∃ r : HardeningMaterial K × K, getStressSensitivity m gradIndex = some r ∧ r.1 = m) ∧
    (∀ (gradIndex : Int) (r : HardeningMaterial K × K),
      getStressSensitivity m gradIndex = some r → r.1 = m) ∧
    (∀ gradIndex : Int,
      (getTangentSensitivity m gradIndex).1 = m ∧
      (getInitialTangentSensitivity m gradIndex).1 = m) := by
  refine ⟨rfl, ?_, rfl, ?_, ?_, ?_, ?_, ⟨rfl, rfl, rfl⟩, ?_, ?_, ?_⟩
  · intro strain
    have h := setTrialStrain_frame m strain
    exact ⟨h.2.2.2.2.2.1, h.2.2.2.2.2.2.1⟩
  · intro parameterID v
    unfold updateParameter
    split_ifs <;> exact ⟨rfl, rfl⟩
  · intro passedParameterID
    exact ⟨rfl, rfl⟩
  · intro d gradIndex numGrads hg
    obtain ⟨M2, hM2⟩ := commitSensitivity_succeeds m d gradIndex numGrads hg
    exact ⟨_, hM2, rfl, rfl⟩
  · intro d gradIndex numGrads r h
    obtain ⟨-, M, hM⟩ := commitSensitivity_frame m d gradIndex numGrads r h
    rw [hM]
    exact ⟨rfl, rfl⟩
  · intro gradIndex hg
    obtain ⟨pa, hpa⟩ := Option.isSome_iff_exists.mp (historySens_isSome m gradIndex hg)
    refine ⟨(m, stressSensitivityAt m pa.1 pa.2), ?_, rfl⟩
    rw [getStressSensitivity_eq, hpa]
    rfl
  · intro gradIndex r h
    exact getStressSensitivity_frame m gradIndex r h
  · intro gradIndex
    constructor
    · unfold getTangentSensitivity
      dsimp only
      split_ifs <;> rfl
    · unfold getInitialTangentSensitivity
      split_ifs <;> rfl

/-- Witness of the amended C8: on the sample state at strain 1 (plastic step),
whose matrix has the columns `(5, 7)`, `(1, 1)`, and for `gradIndex = 0`, the
committed history after `commitSensitivity(1, 0, 2)` is still `(0, 0)` and
`getStressSensitivity(0)` leaves the state as it was. -/
theorem committed_history_changes_only_in_commitState_witness :
    (0 : Int) ≤ 0 ∧
    (commitSensitivity (sampleState ℚ 1 0 (some ⟨[(5, 7), (1, 1)]⟩)) 1 0 2).map
      (fun r => (r.1.CplasticStrain, r.1.Chardening)) = some (0, 0) ∧
    (getStressSensitivity (sampleState ℚ 1 0 (some ⟨[(5, 7), (1, 1)]⟩)) 0).map Prod.fst
      = some (sampleState ℚ 1 0 (some ⟨[(5, 7), (1, 1)]⟩)) := by
  have h := committed_history_changes_only_in_commitState
    (sampleState ℚ 1 0 (some ⟨[(5, 7), (1, 1)]⟩))
  obtain ⟨r, hr, h1, h2⟩ := h.2.2.2.2.2.1 1 0 2 (le_refl 0)
  obtain ⟨r2, hr2, h3⟩ := h.2.2.2.2.2.2.2.2.1 0 (le_refl 0)
  refine ⟨le_refl 0, ?_, ?_⟩
  · rw [hr]
    simp only [Option.map_some', h1, h2]
    rfl
  · rw [hr2]
    simp only [Option.map_some', h3]

end OpenSees.HardeningMaterial
